import Mathlib

/-!
Verification of the EasyWin32 window adapter (WenchaoHuang/EasyWin32).

The repository is a header-only Win32 adapter that maps native window
messages to typed callback invocations.  It ships several versions of the
same design:

* `easywin32.h`   — the main version (`easywin32::Window`), window
  procedure `procedure<EraseTitleBar>`; "not handled" sentinel is `-1`.
* `src/unnamed/part_001` — an evolved version (`easywin32::Window`,
  `procedure<SkipCaption>`), sentinel `-1`, drop-files callback takes the
  collected path list, `WM_NCCALCSIZE` delegates to `DefWindowProc` first.
* `easy_win32.h`  — an older version (`easy_win32::Window`, `Procedure`),
  where `0` means "handled" and the initial result value is `1`.

This file gives a shallow embedding of the three window procedures, the
`Flags<EnumType>` bit-flag wrapper, the `open`/`close`/`SetTitle`
operations and the message-pump primitives, and proves the specification
claims against them.  Native OS behaviour (`DefWindowProc`,
`AdjustWindowRectEx`, window creation, the message queue) is modelled by
explicit oracles / explicit queue state.  Observable side effects
(`DefWindowProc` calls, `PostQuitMessage`, `DragFinish`, callback
invocations) are recorded in a trace.
-/

namespace EzSpec

/-! ### Win32 message identifiers and packed-parameter decoding -/

def WM_CREATE : Nat := 0x0001
def WM_DESTROY : Nat := 0x0002
def WM_MOVE : Nat := 0x0003
def WM_SIZE : Nat := 0x0005
def WM_SETFOCUS : Nat := 0x0007
def WM_KILLFOCUS : Nat := 0x0008
def WM_PAINT : Nat := 0x000F
def WM_CLOSE : Nat := 0x0010
def WM_NCCALCSIZE : Nat := 0x0083
def WM_NCHITTEST : Nat := 0x0084
def WM_KEYDOWN : Nat := 0x0100
def WM_KEYUP : Nat := 0x0101
def WM_CHAR : Nat := 0x0102
def WM_SYSKEYDOWN : Nat := 0x0104
def WM_SYSKEYUP : Nat := 0x0105
def WM_SYSCHAR : Nat := 0x0106
def WM_UNICHAR : Nat := 0x0109
def WM_TIMER : Nat := 0x0113
def WM_MOUSEMOVE : Nat := 0x0200
def WM_LBUTTONDOWN : Nat := 0x0201
def WM_LBUTTONUP : Nat := 0x0202
def WM_LBUTTONDBLCLK : Nat := 0x0203
def WM_RBUTTONDOWN : Nat := 0x0204
def WM_RBUTTONUP : Nat := 0x0205
def WM_RBUTTONDBLCLK : Nat := 0x0206
def WM_MBUTTONDOWN : Nat := 0x0207
def WM_MBUTTONUP : Nat := 0x0208
def WM_MBUTTONDBLCLK : Nat := 0x0209
def WM_MOUSEWHEEL : Nat := 0x020A
def WM_XBUTTONDOWN : Nat := 0x020B
def WM_XBUTTONUP : Nat := 0x020C
def WM_XBUTTONDBLCLK : Nat := 0x020D
def WM_MOUSEHWHEEL : Nat := 0x020E
def WM_ENTERSIZEMOVE : Nat := 0x0231
def WM_EXITSIZEMOVE : Nat := 0x0232
def WM_DROPFILES : Nat := 0x0233
def WM_MOUSELEAVE : Nat := 0x02A3

def WHEEL_DELTA : Nat := 120
def XBUTTON1 : Nat := 1
def XBUTTON2 : Nat := 2

/-- `LOWORD(l)`: the low 16 bits of a packed parameter. -/
def loword (n : Nat) : Nat := n % 65536

/-- `HIWORD(l)`: bits 16..31 of a packed parameter. -/
def hiword (n : Nat) : Nat := (n >>> 16) % 65536

/-- Reinterpret a 16-bit word as a signed `short` (two's complement). -/
def toInt16 (n : Nat) : Int :=
  if n % 65536 < 32768 then ((n % 65536 : Nat) : Int)
  else ((n % 65536 : Nat) : Int) - 65536

/-- `GET_X_LPARAM`: signed x coordinate from the low word of `lParam`. -/
def getXLParam (l : Nat) : Int := toInt16 (loword l)

/-- `GET_Y_LPARAM`: signed y coordinate from the high word of `lParam`. -/
def getYLParam (l : Nat) : Int := toInt16 (hiword l)

/-- `GET_XBUTTON_WPARAM(w)` is `HIWORD(w)`: the X-button sub-code. -/
def getXButtonWParam (w : Nat) : Nat := hiword w

/-- The mouse-state bitmask passed to mouse callbacks: `wParam & 127`. -/
def mouseStateOf (w : Nat) : Nat := w &&& 127

/-- C++ signed integer division truncates toward zero (`Int.tdiv`). -/
def cppDiv (a b : Int) : Int := Int.tdiv a b

/-- The wheel delta passed to `onWheelScroll`:
`static_cast<SHORT>(HIWORD(wParam)) / WHEEL_DELTA`. -/
def wheelDelta (w : Nat) : Int := cppDiv (toInt16 (hiword w)) (WHEEL_DELTA : Int)

/-- Whether bit 30 of `lParam` is set (`lParam & (1 << 30)`), the
key-was-already-down ("repeat") flag of keyboard messages. -/
def repeatBit (l : Nat) : Bool := (l &&& (1 <<< 30)) != 0

/-! ### Event payload enums (from `easywin32.h`) -/

/-- `easywin32::MouseButton`. -/
inductive MouseButton where
  | Left
  | Right
  | Middle
  | XButton1
  | XButton2
deriving DecidableEq

/-- `easywin32::MouseAction`. -/
inductive MouseAction where
  | Up
  | Down
  | DoubleClick
deriving DecidableEq

/-- `easywin32::KeyAction`. -/
inductive KeyAction where
  | Press
  | Repeat
  | Release
deriving DecidableEq

/-- A `RECT` with signed coordinates. -/
structure Rect where
  left : Int
  top : Int
  right : Int
  bottom : Int
deriving DecidableEq

/-! ### The `Flags<EnumType>` bit-flag wrapper of `easywin32.h`

The underlying type is `DWORD` (an unsigned 32-bit integer), modelled as a
`Nat`; bitwise NOT complements within 32 bits. -/

/-- Width mask for the 32-bit underlying type of `Flags`. -/
def dwordMask : Nat := 2 ^ 32 - 1

/-- `easywin32::Flags<EnumType>` (easywin32.h version, field `flags`). -/
structure Flags where
  flags : Nat
deriving DecidableEq

/-- Default constructor `Flags()`: zero flags. -/
def Flags.empty : Flags := ⟨0⟩

/-- `operator|`. -/
def Flags.orF (a b : Flags) : Flags := ⟨a.flags ||| b.flags⟩

/-- `operator&`. -/
def Flags.andF (a b : Flags) : Flags := ⟨a.flags &&& b.flags⟩

/-- `operator^`. -/
def Flags.xorF (a b : Flags) : Flags := ⟨a.flags ^^^ b.flags⟩

/-- `operator~` (32-bit complement of the `DWORD` underlying type). -/
def Flags.notF (a : Flags) : Flags := ⟨a.flags ^^^ dwordMask⟩

/-- `has(bit)`: `(flags & bit) != 0`. -/
def Flags.has (a : Flags) (bit : Nat) : Bool := (a.flags &&& bit) != 0

/-- `none()`: `flags == 0`. -/
def Flags.none (a : Flags) : Bool := a.flags == 0

/-- `any()`: `flags != 0`. -/
def Flags.any (a : Flags) : Bool := a.flags != 0

/-- `operator bool()`: `flags != 0`. -/
def Flags.toBool (a : Flags) : Bool := a.flags != 0

/-- `clear()`: sets `flags = 0` (modelled as returning the cleared value). -/
def Flags.clear (_ : Flags) : Flags := ⟨0⟩

/-! ### Observable side effects of the window procedure

Every `DefWindowProc` call, `PostQuitMessage`, `DragFinish` and callback
invocation performed by a window procedure is recorded, in program order,
in a trace of `Ev` values.  Callback invocation events carry the decoded
payload that the procedure passed to the callback. -/

/-- One observable action of a window procedure. -/
inductive Ev where
  | DefWindowProcCall
  | PostQuit
  | DragFinishCall
  | Forward (uMsg wParam lParam : Nat)
  | OnClose
  | OnTimer
  | OnTimerId (id : Nat)
  | OnPaint
  | OnSetFocus
  | OnKillFocus
  | OnFocus (focused : Bool)
  | OnMouseLeave
  | OnExitMove
  | OnEnterMove
  | OnInputCharacter (c : Nat)
  | OnMove (x y : Int)
  | OnResize (w h : Int)
  | OnHitTest (x y : Int)
  | OnKeyboardPress (key : Nat) (action : KeyAction)
  | OnMouseMove (x y : Int) (state : Nat)
  | OnWheelScroll (dx dy : Int) (state : Nat)
  | OnMouseClick (button : MouseButton) (action : MouseAction) (state : Nat)
  | OnDropFile (path : String)
  | OnDropFiles (paths : List String)
deriving DecidableEq

/-- True for events that are invocations of a user callback (as opposed to
`DefWindowProc` / `PostQuitMessage` / `DragFinish` bookkeeping). -/
def Ev.isCallback : Ev → Bool
  | .DefWindowProcCall => false
  | .PostQuit => false
  | .DragFinishCall => false
  | _ => true

/-- Environment abstracting the native OS services consulted by a window
procedure: the `DefWindowProc` result oracle, the client rectangle that
`DefWindowProc` would compute for `WM_NCCALCSIZE`, the `IsZoomed` state,
the paths enumerable from the `WM_DROPFILES` drop handle, and the incoming
`rgrc[0]` rectangle of `NCCALCSIZE_PARAMS`. -/
structure Env where
  defWindowProc : Nat → Nat → Nat → Int
  defCalcRect : Rect → Rect
  isZoomed : Bool
  dropFiles : List String
  ncRect : Rect

/-- Result of one window-procedure invocation: the `LRESULT`, the trace of
observable actions, and the final `rgrc[0]` rectangle. -/
structure ProcOut where
  result : Int
  trace : List Ev
  ncRect : Rect

/-- A `DefWindowProc` call: produces the oracle result and, for
`WM_NCCALCSIZE`, rewrites the client rectangle. -/
def callDef (env : Env) (uMsg wParam lParam : Nat) (r : Rect) : Int × Rect :=
  (env.defWindowProc uMsg wParam lParam,
   if uMsg = WM_NCCALCSIZE then env.defCalcRect r else r)

/-! ### `easywin32::Window::procedure<EraseTitleBar>` (easywin32.h)

Callback slots are `std::function` values, nullable; nullary slots are
modelled as `Option Int` (a parameterless callback is a constant). -/

/-- The callback slots of `easywin32::Window` (easywin32.h version). -/
structure CallbacksA where
  forwardMessage : Option (Nat → Nat → Nat → Int) := Option.none
  onInputCharacter : Option (Nat → Int) := Option.none
  onDropFile : Option (String → Int) := Option.none
  onKillFocus : Option Int := Option.none
  onSetFocus : Option Int := Option.none
  onEnterMove : Option Int := Option.none
  onExitMove : Option Int := Option.none
  onPaint : Option Int := Option.none
  onTimer : Option Int := Option.none
  onClose : Option Int := Option.none
  onMouseLeave : Option Int := Option.none
  onMove : Option (Int → Int → Int) := Option.none
  onResize : Option (Int → Int → Int) := Option.none
  onMouseMove : Option (Int → Int → Nat → Int) := Option.none
  onWheelScroll : Option (Int → Int → Nat → Int) := Option.none
  onMouseClick : Option (MouseButton → MouseAction → Nat → Int) := Option.none
  onKeyboardPress : Option (Nat → KeyAction → Int) := Option.none
  onHitTest : Option (Int → Int → Int) := Option.none

/-- Outcome of the `switch (uMsg)` statement: the `result` variable after
the switch, the callback invocations performed, and—for the
`WM_DROPFILES` case of easywin32.h, which contains a `return 0;`—an early
return value. -/
structure SwitchOut where
  result : Int
  events : List Ev
  early : Option Int := Option.none

/-- Helper for a nullary callback slot in a switch case: if the slot is
set, `result` becomes its value and the invocation is recorded, otherwise
`result` keeps the incoming value and nothing happens. -/
def caseSimple (slot : Option Int) (ev : Ev) (rin : Int) : SwitchOut :=
  match slot with
  | Option.some v => { result := v, events := [ev] }
  | Option.none => { result := rin, events := [] }

/-- A `WM_?BUTTON*` case of the dispatch switch: invoke `onMouseClick`
with the given button and action if the slot is set. -/
def clickCase (slot : Option (MouseButton → MouseAction → Nat → Int))
    (b : MouseButton) (a : MouseAction) (wParam : Nat) (rin : Int) : SwitchOut :=
  match slot with
  | Option.some f =>
      { result := f b a (mouseStateOf wParam),
        events := [.OnMouseClick b a (mouseStateOf wParam)] }
  | Option.none => { result := rin, events := [] }

/-- The case labels of the dispatch `switch (uMsg)` shared by easywin32.h
and part_001 (their switches have the same label set). -/
inductive CaseAB where
  | close | timer | paint | setFocus | killFocus | mouseLeave | exitMove | enterMove
  | char | move | size | hitTest | keyUp | keyDown | mouseMove
  | wheelVertical | wheelHorizontal
  | click (b : MouseButton) (a : MouseAction)
  | xbutton
  | dropFiles
  | other
deriving DecidableEq

/-- Which case of the easywin32.h / part_001 dispatch switch a message
identifier selects (the `case` labels of the `switch (uMsg)`). -/
def classifyAB (u : Nat) : CaseAB :=
  if u = WM_CLOSE then .close
  else if u = WM_TIMER then .timer
  else if u = WM_PAINT then .paint
  else if u = WM_SETFOCUS then .setFocus
  else if u = WM_KILLFOCUS then .killFocus
  else if u = WM_MOUSELEAVE then .mouseLeave
  else if u = WM_EXITSIZEMOVE then .exitMove
  else if u = WM_ENTERSIZEMOVE then .enterMove
  else if u = WM_CHAR ∨ u = WM_SYSCHAR ∨ u = WM_UNICHAR then .char
  else if u = WM_MOVE then .move
  else if u = WM_SIZE then .size
  else if u = WM_NCHITTEST then .hitTest
  else if u = WM_KEYUP ∨ u = WM_SYSKEYUP then .keyUp
  else if u = WM_KEYDOWN ∨ u = WM_SYSKEYDOWN then .keyDown
  else if u = WM_MOUSEMOVE then .mouseMove
  else if u = WM_MOUSEWHEEL then .wheelVertical
  else if u = WM_MOUSEHWHEEL then .wheelHorizontal
  else if u = WM_LBUTTONUP then .click .Left .Up
  else if u = WM_RBUTTONUP then .click .Right .Up
  else if u = WM_MBUTTONUP then .click .Middle .Up
  else if u = WM_LBUTTONDOWN then .click .Left .Down
  else if u = WM_RBUTTONDOWN then .click .Right .Down
  else if u = WM_MBUTTONDOWN then .click .Middle .Down
  else if u = WM_LBUTTONDBLCLK then .click .Left .DoubleClick
  else if u = WM_RBUTTONDBLCLK then .click .Right .DoubleClick
  else if u = WM_MBUTTONDBLCLK then .click .Middle .DoubleClick
  else if u = WM_XBUTTONUP ∨ u = WM_XBUTTONDOWN ∨ u = WM_XBUTTONDBLCLK then .xbutton
  else if u = WM_DROPFILES then .dropFiles
  else .other

/-- A `WM_CHAR`/`WM_SYSCHAR`/`WM_UNICHAR` case: invoke `onInputCharacter`
with `static_cast<wchar_t>(wParam)` if set. -/
def charCase (slot : Option (Nat → Int)) (wParam : Nat) (rin : Int) : SwitchOut :=
  match slot with
  | Option.some f =>
      { result := f (wParam % 65536), events := [.OnInputCharacter (wParam % 65536)] }
  | Option.none => { result := rin, events := [] }

/-- A case passing `GET_X_LPARAM`/`GET_Y_LPARAM` to a two-argument slot
(`onMove`, `onResize`, `onHitTest`). -/
def pairCase (slot : Option (Int → Int → Int)) (mk : Int → Int → Ev)
    (lParam : Nat) (rin : Int) : SwitchOut :=
  match slot with
  | Option.some f =>
      { result := f (getXLParam lParam) (getYLParam lParam),
        events := [mk (getXLParam lParam) (getYLParam lParam)] }
  | Option.none => { result := rin, events := [] }

/-- A keyboard case: invoke `onKeyboardPress` with the virtual-key code
(`wParam`) and the given action if set. -/
def keyCase (slot : Option (Nat → KeyAction → Int)) (wParam : Nat)
    (act : KeyAction) (rin : Int) : SwitchOut :=
  match slot with
  | Option.some f =>
      { result := f wParam act, events := [.OnKeyboardPress wParam act] }
  | Option.none => { result := rin, events := [] }

/-- The `WM_MOUSEMOVE` case: coordinates from `lParam`, state from
`wParam & 127`. -/
def mouseMoveCase (slot : Option (Int → Int → Nat → Int)) (wParam lParam : Nat)
    (rin : Int) : SwitchOut :=
  match slot with
  | Option.some f =>
      { result := f (getXLParam lParam) (getYLParam lParam) (mouseStateOf wParam),
        events := [.OnMouseMove (getXLParam lParam) (getYLParam lParam) (mouseStateOf wParam)] }
  | Option.none => { result := rin, events := [] }

/-- A wheel case: invoke `onWheelScroll` with the given `(dx, dy)` pair
and the state from `wParam & 127`. -/
def wheelCase (slot : Option (Int → Int → Nat → Int)) (dx dy : Int)
    (wParam : Nat) (rin : Int) : SwitchOut :=
  match slot with
  | Option.some f =>
      { result := f dx dy (mouseStateOf wParam),
        events := [.OnWheelScroll dx dy (mouseStateOf wParam)] }
  | Option.none => { result := rin, events := [] }

/-- The `WM_XBUTTON*` cases: the action is chosen by the message kind, and
the button by `GET_XBUTTON_WPARAM`; an unknown sub-code invokes nothing. -/
def xbuttonCase (slot : Option (MouseButton → MouseAction → Nat → Int))
    (uMsg wParam : Nat) (rin : Int) : SwitchOut :=
  match slot with
  | Option.some f =>
    let action : MouseAction :=
      if uMsg = WM_XBUTTONUP then .Up
      else if uMsg = WM_XBUTTONDOWN then .Down
      else .DoubleClick
    if getXButtonWParam wParam = XBUTTON1 then
      { result := f .XButton1 action (mouseStateOf wParam),
        events := [.OnMouseClick .XButton1 action (mouseStateOf wParam)] }
    else if getXButtonWParam wParam = XBUTTON2 then
      { result := f .XButton2 action (mouseStateOf wParam),
        events := [.OnMouseClick .XButton2 action (mouseStateOf wParam)] }
    else { result := rin, events := [] }
  | Option.none => { result := rin, events := [] }

/-- The `switch (uMsg)` body of `easywin32::Window::procedure` in
easywin32.h (lines 1133–1223).  The incoming `result` value at the switch
is always `-1` there, but it is kept as a parameter for fidelity. -/
def switchA (env : Env) (cb : CallbacksA) (uMsg wParam lParam : Nat)
    (rin : Int) : SwitchOut :=
  match classifyAB uMsg with
  | .close => caseSimple cb.onClose .OnClose rin
  | .timer => caseSimple cb.onTimer .OnTimer rin
  | .paint => caseSimple cb.onPaint .OnPaint rin
  | .setFocus => caseSimple cb.onSetFocus .OnSetFocus rin
  | .killFocus => caseSimple cb.onKillFocus .OnKillFocus rin
  | .mouseLeave => caseSimple cb.onMouseLeave .OnMouseLeave rin
  | .exitMove => caseSimple cb.onExitMove .OnExitMove rin
  | .enterMove => caseSimple cb.onEnterMove .OnEnterMove rin
  | .char => charCase cb.onInputCharacter wParam rin
  | .move => pairCase cb.onMove (fun x y => Ev.OnMove x y) lParam rin
  | .size => pairCase cb.onResize (fun x y => Ev.OnResize x y) lParam rin
  | .hitTest => pairCase cb.onHitTest (fun x y => Ev.OnHitTest x y) lParam rin
  | .keyUp => keyCase cb.onKeyboardPress wParam KeyAction.Release rin
  | .keyDown =>
      keyCase cb.onKeyboardPress wParam
        (if repeatBit lParam then KeyAction.Repeat else KeyAction.Press) rin
  | .mouseMove => mouseMoveCase cb.onMouseMove wParam lParam rin
  | .wheelVertical => wheelCase cb.onWheelScroll 0 (wheelDelta wParam) wParam rin
  | .wheelHorizontal => wheelCase cb.onWheelScroll (wheelDelta wParam) 0 wParam rin
  | .click b a => clickCase cb.onMouseClick b a wParam rin
  | .xbutton => xbuttonCase cb.onMouseClick uMsg wParam rin
  | .dropFiles =>
      -- easywin32.h: the per-file callback's results are discarded, the
      -- case ends in `return 0;`, and `DragFinish` is reached only when
      -- the callback slot is set.
      match cb.onDropFile with
      | Option.some _ =>
          { result := rin,
            events := (env.dropFiles.map fun p => Ev.OnDropFile p) ++ [.DragFinishCall],
            early := Option.some 0 }
      | Option.none => { result := rin, events := [] }
  | .other => { result := rin, events := [] }

/-- The code of `easywin32::Window::procedure` after the forward-message
step: run the switch, then either take the early return, return a
non-sentinel result, or fall through to `DefWindowProc`. -/
def procAfterForwardA (env : Env) (cb : CallbacksA) (uMsg wParam lParam : Nat)
    (tr0 : List Ev) : ProcOut :=
  let s := switchA env cb uMsg wParam lParam (-1)
  match s.early with
  | Option.some v => { result := v, trace := tr0 ++ s.events, ncRect := env.ncRect }
  | Option.none =>
    if s.result ≠ -1 then
      { result := s.result, trace := tr0 ++ s.events, ncRect := env.ncRect }
    else
      let (res, r) := callDef env uMsg wParam lParam env.ncRect
      { result := res, trace := tr0 ++ s.events ++ [.DefWindowProcCall], ncRect := r }

/-- `easywin32::Window::procedure<EraseTitleBar>` (easywin32.h,
lines 1076–1231).  `window` is the `Window*` stored in the window's user
data (`none` before `WM_CREATE` has installed it). -/
def procedureA (eraseTitleBar : Bool) (env : Env) (window : Option CallbacksA)
    (uMsg wParam lParam : Nat) : ProcOut :=
  if uMsg = WM_CREATE then
    -- stores the Window* in the user data, then falls through to DefWindowProc
    let (res, r) := callDef env uMsg wParam lParam env.ncRect
    { result := res, trace := [.DefWindowProcCall], ncRect := r }
  else if uMsg = WM_NCCALCSIZE then
    if eraseTitleBar then
      let r := env.ncRect
      let frameSize : Int := 8
      let r' :=
        if env.isZoomed then
          { left := r.left + frameSize, top := r.top + frameSize,
            right := r.right - frameSize, bottom := r.bottom - frameSize : Rect }
        else
          { left := r.left + frameSize, top := r.top + 0,
            right := r.right - frameSize, bottom := r.bottom - frameSize : Rect }
      { result := 0, trace := [], ncRect := r' }
    else
      let (res, r) := callDef env uMsg wParam lParam env.ncRect
      { result := res, trace := [.DefWindowProcCall], ncRect := r }
  else if uMsg = WM_DESTROY then
    { result := 0, trace := [.PostQuit], ncRect := env.ncRect }
  else
    match window with
    | Option.none =>
      let (res, r) := callDef env uMsg wParam lParam env.ncRect
      { result := res, trace := [.DefWindowProcCall], ncRect := r }
    | Option.some cb =>
      match cb.forwardMessage with
      | Option.some f =>
        let r0 := f uMsg wParam lParam
        if r0 ≠ -1 then
          { result := r0, trace := [.Forward uMsg wParam lParam], ncRect := env.ncRect }
        else
          procAfterForwardA env cb uMsg wParam lParam [.Forward uMsg wParam lParam]
      | Option.none => procAfterForwardA env cb uMsg wParam lParam []

/-! ### `easywin32::Window::procedure<SkipCaption>` (src/unnamed/part_001)

Differences from easywin32.h: `onDropFiles` receives the collected path
list and `DragFinish` is always reached; `onTimer` receives the timer id;
focus gain/loss share one `onFocus(bool)` slot; the `WM_NCCALCSIZE`
skip-caption branch first delegates to `DefWindowProc` and then restores
the top edge. -/

/-- The callback slots of `easywin32::Window` (part_001 version). -/
structure CallbacksB where
  forwardMessage : Option (Nat → Nat → Nat → Int) := Option.none
  onInputCharacter : Option (Nat → Int) := Option.none
  onDropFiles : Option (List String → Int) := Option.none
  onEnterMove : Option Int := Option.none
  onExitMove : Option Int := Option.none
  onPaint : Option Int := Option.none
  onTimer : Option (Nat → Int) := Option.none
  onFocus : Option (Bool → Int) := Option.none
  onClose : Option Int := Option.none
  onMouseLeave : Option Int := Option.none
  onMove : Option (Int → Int → Int) := Option.none
  onResize : Option (Int → Int → Int) := Option.none
  onMouseMove : Option (Int → Int → Nat → Int) := Option.none
  onWheelScroll : Option (Int → Int → Nat → Int) := Option.none
  onMouseClick : Option (MouseButton → MouseAction → Nat → Int) := Option.none
  onKeyboardPress : Option (Nat → KeyAction → Int) := Option.none
  onHitTest : Option (Int → Int → Int) := Option.none

/-- The `WM_SETFOCUS`/`WM_KILLFOCUS` cases of part_001: one shared
`onFocus(bool)` slot. -/
def focusCase (slot : Option (Bool → Int)) (v : Bool) (rin : Int) : SwitchOut :=
  match slot with
  | Option.some f => { result := f v, events := [.OnFocus v] }
  | Option.none => { result := rin, events := [] }

/-- The `switch (uMsg)` body of `easywin32::Window::procedure` in
part_001 (lines 1295–1387). -/
def switchB (env : Env) (cb : CallbacksB) (uMsg wParam lParam : Nat)
    (rin : Int) : SwitchOut :=
  match classifyAB uMsg with
  | .close => caseSimple cb.onClose .OnClose rin
  | .timer =>
      match cb.onTimer with
      | Option.some f => { result := f wParam, events := [.OnTimerId wParam] }
      | Option.none => { result := rin, events := [] }
  | .paint => caseSimple cb.onPaint .OnPaint rin
  | .setFocus => focusCase cb.onFocus true rin
  | .killFocus => focusCase cb.onFocus false rin
  | .mouseLeave => caseSimple cb.onMouseLeave .OnMouseLeave rin
  | .exitMove => caseSimple cb.onExitMove .OnExitMove rin
  | .enterMove => caseSimple cb.onEnterMove .OnEnterMove rin
  | .char => charCase cb.onInputCharacter wParam rin
  | .move => pairCase cb.onMove (fun x y => Ev.OnMove x y) lParam rin
  | .size => pairCase cb.onResize (fun x y => Ev.OnResize x y) lParam rin
  | .hitTest => pairCase cb.onHitTest (fun x y => Ev.OnHitTest x y) lParam rin
  | .keyUp => keyCase cb.onKeyboardPress wParam KeyAction.Release rin
  | .keyDown =>
      keyCase cb.onKeyboardPress wParam
        (if repeatBit lParam then KeyAction.Repeat else KeyAction.Press) rin
  | .mouseMove => mouseMoveCase cb.onMouseMove wParam lParam rin
  | .wheelVertical => wheelCase cb.onWheelScroll 0 (wheelDelta wParam) wParam rin
  | .wheelHorizontal => wheelCase cb.onWheelScroll (wheelDelta wParam) 0 wParam rin
  | .click b a => clickCase cb.onMouseClick b a wParam rin
  | .xbutton => xbuttonCase cb.onMouseClick uMsg wParam rin
  | .dropFiles =>
      -- part_001: the collected path list is passed to the callback, the
      -- result is kept, and `DragFinish` is called regardless.
      match cb.onDropFiles with
      | Option.some f =>
          { result := f env.dropFiles,
            events := [.OnDropFiles env.dropFiles, .DragFinishCall] }
      | Option.none => { result := rin, events := [.DragFinishCall] }
  | .other => { result := rin, events := [] }

/-- The code of part_001's procedure after the forward-message step.  Its
switch has no early return; dropped files are handled as ordinary cases. -/
def procAfterForwardB (env : Env) (cb : CallbacksB) (uMsg wParam lParam : Nat)
    (tr0 : List Ev) : ProcOut :=
  let s := switchB env cb uMsg wParam lParam (-1)
  if s.result ≠ -1 then
    { result := s.result, trace := tr0 ++ s.events, ncRect := env.ncRect }
  else
    let (res, r) := callDef env uMsg wParam lParam env.ncRect
    { result := res, trace := tr0 ++ s.events ++ [.DefWindowProcCall], ncRect := r }

/-- `easywin32::Window::procedure<SkipCaption>` (part_001,
lines 1236–1395). -/
def procedureB (skipCaption : Bool) (env : Env) (window : Option CallbacksB)
    (uMsg wParam lParam : Nat) : ProcOut :=
  if uMsg = WM_CREATE then
    let (res, r) := callDef env uMsg wParam lParam env.ncRect
    { result := res, trace := [.DefWindowProcCall], ncRect := r }
  else if uMsg = WM_NCCALCSIZE then
    if skipCaption then
      -- back up the original top, let DefWindowProc compute the frame,
      -- then restore the top (plus the 8-px frame when maximized)
      let top := env.ncRect.top
      let (res, r1) := callDef env uMsg wParam lParam env.ncRect
      let frameSize : Int := 8
      let r' :=
        if env.isZoomed then { r1 with top := top + frameSize }
        else { r1 with top := top }
      { result := res, trace := [.DefWindowProcCall], ncRect := r' }
    else
      let (res, r) := callDef env uMsg wParam lParam env.ncRect
      { result := res, trace := [.DefWindowProcCall], ncRect := r }
  else if uMsg = WM_DESTROY then
    { result := 0, trace := [.PostQuit], ncRect := env.ncRect }
  else
    match window with
    | Option.none =>
      let (res, r) := callDef env uMsg wParam lParam env.ncRect
      { result := res, trace := [.DefWindowProcCall], ncRect := r }
    | Option.some cb =>
      match cb.forwardMessage with
      | Option.some f =>
        let r0 := f uMsg wParam lParam
        if r0 ≠ -1 then
          { result := r0, trace := [.Forward uMsg wParam lParam], ncRect := env.ncRect }
        else
          procAfterForwardB env cb uMsg wParam lParam [.Forward uMsg wParam lParam]
      | Option.none => procAfterForwardB env cb uMsg wParam lParam []

/-! ### `easy_win32::Window::Procedure` (easy_win32.h)

In this older version `0` means "handled": the local `result` starts at
`1`, a forward callback short-circuits only on `0`, an unmatched case
leaves `result` unchanged, and `DefWindowProc` runs whenever the final
`result` is non-zero.  Its `WM_CREATE` and `WM_NCCALCSIZE` branches fall
through to the common dispatch code, only `WM_DESTROY` returns early. -/

/-- The callback slots of `easy_win32::Window`. -/
structure CallbacksC where
  forwardMessage : Option (Nat → Nat → Nat → Int) := Option.none
  onInputCharacter : Option (Nat → Int) := Option.none
  onKillFocus : Option Int := Option.none
  onSetFocus : Option Int := Option.none
  onEnterMove : Option Int := Option.none
  onExitMove : Option Int := Option.none
  onTimer : Option Int := Option.none
  onClose : Option Int := Option.none
  onResize : Option (Int → Int → Int) := Option.none
  onMove : Option (Int → Int → Int) := Option.none
  onMouseMove : Option (Int → Int → Nat → Int) := Option.none
  onWheelScroll : Option (Int → Int → Nat → Int) := Option.none
  onMouseClick : Option (MouseButton → MouseAction → Nat → Int) := Option.none
  onKeyboardPress : Option (Nat → KeyAction → Int) := Option.none

/-- The case labels of the easy_win32.h dispatch switch (it has no
paint / mouse-leave / hit-test / drop-files cases). -/
inductive CaseC where
  | close | timer | setFocus | killFocus | exitMove | enterMove
  | char | move | size | keyUp | keyDown | mouseMove
  | wheelVertical | wheelHorizontal
  | click (b : MouseButton) (a : MouseAction)
  | xbutton
  | other
deriving DecidableEq

/-- Which case of the easy_win32.h dispatch switch a message identifier
selects. -/
def classifyC (u : Nat) : CaseC :=
  if u = WM_CLOSE then .close
  else if u = WM_TIMER then .timer
  else if u = WM_SETFOCUS then .setFocus
  else if u = WM_KILLFOCUS then .killFocus
  else if u = WM_EXITSIZEMOVE then .exitMove
  else if u = WM_ENTERSIZEMOVE then .enterMove
  else if u = WM_CHAR ∨ u = WM_SYSCHAR ∨ u = WM_UNICHAR then .char
  else if u = WM_MOVE then .move
  else if u = WM_SIZE then .size
  else if u = WM_KEYUP ∨ u = WM_SYSKEYUP then .keyUp
  else if u = WM_KEYDOWN ∨ u = WM_SYSKEYDOWN then .keyDown
  else if u = WM_MOUSEMOVE then .mouseMove
  else if u = WM_MOUSEWHEEL then .wheelVertical
  else if u = WM_MOUSEHWHEEL then .wheelHorizontal
  else if u = WM_LBUTTONUP then .click .Left .Up
  else if u = WM_RBUTTONUP then .click .Right .Up
  else if u = WM_MBUTTONUP then .click .Middle .Up
  else if u = WM_LBUTTONDOWN then .click .Left .Down
  else if u = WM_RBUTTONDOWN then .click .Right .Down
  else if u = WM_MBUTTONDOWN then .click .Middle .Down
  else if u = WM_LBUTTONDBLCLK then .click .Left .DoubleClick
  else if u = WM_RBUTTONDBLCLK then .click .Right .DoubleClick
  else if u = WM_MBUTTONDBLCLK then .click .Middle .DoubleClick
  else if u = WM_XBUTTONUP ∨ u = WM_XBUTTONDOWN ∨ u = WM_XBUTTONDBLCLK then .xbutton
  else .other

/-- The `switch (uMsg)` body of `easy_win32::Window::Procedure`
(easy_win32.h, lines 598–658). -/
def switchC (cb : CallbacksC) (uMsg wParam lParam : Nat) (rin : Int) : SwitchOut :=
  match classifyC uMsg with
  | .close => caseSimple cb.onClose .OnClose rin
  | .timer => caseSimple cb.onTimer .OnTimer rin
  | .setFocus => caseSimple cb.onSetFocus .OnSetFocus rin
  | .killFocus => caseSimple cb.onKillFocus .OnKillFocus rin
  | .exitMove => caseSimple cb.onExitMove .OnExitMove rin
  | .enterMove => caseSimple cb.onEnterMove .OnEnterMove rin
  | .char => charCase cb.onInputCharacter wParam rin
  | .move => pairCase cb.onMove (fun x y => Ev.OnMove x y) lParam rin
  | .size => pairCase cb.onResize (fun x y => Ev.OnResize x y) lParam rin
  | .keyUp => keyCase cb.onKeyboardPress wParam KeyAction.Release rin
  | .keyDown =>
      keyCase cb.onKeyboardPress wParam
        (if repeatBit lParam then KeyAction.Repeat else KeyAction.Press) rin
  | .mouseMove => mouseMoveCase cb.onMouseMove wParam lParam rin
  | .wheelVertical => wheelCase cb.onWheelScroll 0 (wheelDelta wParam) wParam rin
  | .wheelHorizontal => wheelCase cb.onWheelScroll (wheelDelta wParam) 0 wParam rin
  | .click b a => clickCase cb.onMouseClick b a wParam rin
  | .xbutton => xbuttonCase cb.onMouseClick uMsg wParam rin
  | .other => { result := rin, events := [] }

/-- The tail of `easy_win32::Window::Procedure`: run the switch with the
incoming `result`, return it when it is `0`, otherwise `DefWindowProc`. -/
def finishC (env : Env) (cb : CallbacksC) (uMsg wParam lParam : Nat)
    (rin : Int) (tr0 : List Ev) : ProcOut :=
  let s := switchC cb uMsg wParam lParam rin
  if s.result = 0 then
    { result := s.result, trace := tr0 ++ s.events, ncRect := env.ncRect }
  else
    let (res, r) := callDef env uMsg wParam lParam env.ncRect
    { result := res, trace := tr0 ++ s.events ++ [.DefWindowProcCall], ncRect := r }

/-- `easy_win32::Window::Procedure` (easy_win32.h, lines 557–666). -/
def procedureC (env : Env) (window : Option CallbacksC)
    (uMsg wParam lParam : Nat) : ProcOut :=
  if uMsg = WM_DESTROY then
    { result := 0, trace := [.PostQuit], ncRect := env.ncRect }
  else
    match window with
    | Option.none =>
      let (res, r) := callDef env uMsg wParam lParam env.ncRect
      { result := res, trace := [.DefWindowProcCall], ncRect := r }
    | Option.some cb =>
      match cb.forwardMessage with
      | Option.some f =>
        let r0 := f uMsg wParam lParam
        if r0 = 0 then
          { result := r0, trace := [.Forward uMsg wParam lParam], ncRect := env.ncRect }
        else
          finishC env cb uMsg wParam lParam r0 [.Forward uMsg wParam lParam]
      | Option.none => finishC env cb uMsg wParam lParam 1 []

/-! ### Window lifecycle: `open` / `close`

The OS side is explicit state: the set of live native window handles, a
fresh-handle counter, whether window-class registration succeeded, whether
`CreateWindowEx` succeeds, and an `AdjustWindowRectEx` oracle.  A `HWND`
member is an `Option Nat` (`Option.none` is `nullptr`). -/

/-- Native window style bits used by `open`. -/
def WS_POPUP : Nat := 0x80000000
def WS_CAPTION : Nat := 0x00C00000
def WS_BORDER : Nat := 0x00800000
def WS_VISIBLE : Nat := 0x10000000
def WS_SYSMENU : Nat := 0x00080000
def WS_DISABLED : Nat := 0x08000000
def WS_THICKFRAME : Nat := 0x00040000
def WS_MINIMIZEBOX : Nat := 0x00020000
def WS_MAXIMIZEBOX : Nat := 0x00010000

/-- The OS window-manager state visible to `open`/`close`. -/
structure OS where
  live : List Nat
  nextHandle : Nat
  registered : Bool
  createOk : Bool
  adjustRect : Rect → Nat → Nat → Rect

/-- `::IsWindow(hWnd)`: a non-null handle that identifies a live window. -/
def isWindow (os : OS) : Option Nat → Bool
  | Option.some h => os.live.contains h
  | Option.none => false

/-- `::DestroyWindow(hWnd)`: removes a live window; fails harmlessly on a
null or dead handle. -/
def destroyWindow (os : OS) : Option Nat → OS
  | Option.some h => { os with live := os.live.filter fun x => x ≠ h }
  | Option.none => os

/-- The member state of `easywin32::Window` (easywin32.h): just `m_hWnd`. -/
structure WindowA where
  hWnd : Option Nat := Option.none
deriving DecidableEq

/-- The member state of `easywin32::Window` (part_001): `m_hWnd` and
`m_skipCaption`. -/
structure WindowB where
  hWnd : Option Nat := Option.none
  skipCaption : Bool := false
deriving DecidableEq

/-- `easywin32::Window::internalOpen` (easywin32.h / part_001): if the
window class is registered, `CreateWindowEx` is attempted and its result
(a fresh handle, or null on failure) is stored in `m_hWnd`. -/
def internalOpen (os : OS) (hWndOld : Option Nat) : OS × Option Nat :=
  if os.registered then
    if os.createOk then
      ({ os with live := os.nextHandle :: os.live, nextHandle := os.nextHandle + 1 },
       Option.some os.nextHandle)
    else (os, Option.none)
  else (os, hWndOld)

/-- `easywin32::Window::open(title, bounds, styleFlags, exStyleFlags)`
(easywin32.h, lines 1320–1349). -/
def openARect (os : OS) (st : WindowA) (_title : String) (bounds : Rect)
    (styleFlags exStyleFlags : Flags) : OS × WindowA :=
  if isWindow os st.hWnd then (os, st)
  else
    let styleFlags :=
      if styleFlags.has WS_POPUP then styleFlags.andF (Flags.notF ⟨WS_CAPTION⟩)
      else styleFlags
    if ¬ styleFlags.has WS_POPUP ∧ ¬ styleFlags.has WS_CAPTION then
      let frameSize : Int := 8
      let _b : Rect :=
        { bounds with bottom := bounds.bottom + frameSize,
                      right := bounds.right + frameSize,
                      left := bounds.left - frameSize }
      let (os', h) := internalOpen os st.hWnd
      (os', { st with hWnd := h })
    else
      let _b := os.adjustRect bounds styleFlags.flags exStyleFlags.flags
      let (os', h) := internalOpen os st.hWnd
      (os', { st with hWnd := h })

/-- `easywin32::Window::open(title, size, styleFlags, exStyleFlags)`
(easywin32.h, lines 1366–1397): same logic on a `{0,0,cx,cy}` rectangle,
with default placement. -/
def openASize (os : OS) (st : WindowA) (title : String) (cx cy : Int)
    (styleFlags exStyleFlags : Flags) : OS × WindowA :=
  openARect os st title { left := 0, top := 0, right := cx, bottom := cy }
    styleFlags exStyleFlags

/-- The `open(bounds, ...)` overload with the default "Easy-Win32" title
(easywin32.h, lines 843–850). -/
def openARectDefaultTitle (os : OS) (st : WindowA) (bounds : Rect)
    (styleFlags exStyleFlags : Flags) : OS × WindowA :=
  openARect os st "Easy-Win32" bounds styleFlags exStyleFlags

/-- The `open(size, ...)` overload with the default "Easy-Win32" title
(easywin32.h, lines 870–877). -/
def openASizeDefaultTitle (os : OS) (st : WindowA) (cx cy : Int)
    (styleFlags exStyleFlags : Flags) : OS × WindowA :=
  openASize os st "Easy-Win32" cx cy styleFlags exStyleFlags

/-- `easywin32::Window::close` (easywin32.h, line 885):
`::DestroyWindow(m_hWnd); m_hWnd = nullptr;` — unconditional. -/
def closeA (os : OS) (st : WindowA) : OS × WindowA :=
  (destroyWindow os st.hWnd, { st with hWnd := Option.none })

/-! #### part_001 `open`: style translation and skip-caption selection -/

/-- `easywin32::Flags` (part_001 version, field `mask`): `has` requires
all bits of the argument. -/
structure FlagsM where
  mask : Nat
deriving DecidableEq

/-- part_001 `Flags::has(flags)`:
`flags ? (flags.mask & mask) == flags.mask : !flags`. -/
def FlagsM.has (a f : FlagsM) : Bool :=
  if f.mask != 0 then (f.mask &&& a.mask) == f.mask else true

/-- part_001 `Style` enumeration values. -/
def StyleB_Border : Nat := 1
def StyleB_Visible : Nat := 2
def StyleB_SysMenu : Nat := 4
def StyleB_Disabled : Nat := 8
def StyleB_ThickFrame : Nat := 32
def StyleB_MinimizeBox : Nat := 64
def StyleB_MaximizeBox : Nat := 128
def StyleB_Resizable : Nat := 48
def StyleB_Caption : Nat := 289

/-- part_001 `Window::toNativeStyle` (lines 1564–1594). -/
def toNativeStyle (sf : FlagsM) : Nat :=
  let dw := WS_POPUP
  let dw := if sf.has ⟨StyleB_Border⟩ then dw ||| WS_BORDER else dw
  let dw := if sf.has ⟨StyleB_Visible⟩ then dw ||| WS_VISIBLE else dw
  let dw := if sf.has ⟨StyleB_SysMenu⟩ then dw ||| WS_SYSMENU else dw
  let dw := if sf.has ⟨StyleB_Disabled⟩ then dw ||| WS_DISABLED else dw
  let dw := if sf.has ⟨StyleB_Resizable⟩ then dw ||| WS_THICKFRAME else dw
  let dw := if sf.has ⟨StyleB_MinimizeBox⟩ then dw ||| WS_MINIMIZEBOX else dw
  let dw := if sf.has ⟨StyleB_MaximizeBox⟩ then dw ||| WS_MAXIMIZEBOX else dw
  if sf.has ⟨StyleB_Caption⟩ || sf.has ⟨StyleB_ThickFrame⟩ then dw ||| WS_CAPTION
  else dw

/-- part_001 `Window::shouldSkipCaption` (line 1174). -/
def shouldSkipCaption (sf : FlagsM) : Bool :=
  !sf.has ⟨StyleB_Caption⟩ && sf.has ⟨StyleB_ThickFrame⟩

/-- part_001 `Window::adjustWindowRect<SkipCaption>` (lines 1550–1560). -/
def adjustWindowRectB (skipCaption : Bool) (os : OS) (rect : Rect)
    (dwStyle dwExStyle : Nat) : Rect :=
  let top := rect.top
  let r := os.adjustRect rect dwStyle dwExStyle
  if skipCaption then { r with top := top } else r

/-- part_001 `Window::open(title, bounds, styleFlags, exStyleFlags)`
(lines 1481–1505). -/
def openBRect (os : OS) (st : WindowB) (_title : String) (bounds : Rect)
    (styleFlags : FlagsM) (exStyleFlags : Nat) : OS × WindowB :=
  if isWindow os st.hWnd then (os, st)
  else
    let dwStyle := toNativeStyle styleFlags
    if shouldSkipCaption styleFlags then
      let st := { st with skipCaption := true }
      let _b := adjustWindowRectB true os bounds dwStyle exStyleFlags
      let (os', h) := internalOpen os st.hWnd
      (os', { st with hWnd := h })
    else
      let st := { st with skipCaption := false }
      let _b := adjustWindowRectB false os bounds dwStyle exStyleFlags
      let (os', h) := internalOpen os st.hWnd
      (os', { st with hWnd := h })

/-- part_001 `Window::open(title, size, styleFlags, exStyleFlags)`
(lines 1520–1546). -/
def openBSize (os : OS) (st : WindowB) (title : String) (cx cy : Int)
    (styleFlags : FlagsM) (exStyleFlags : Nat) : OS × WindowB :=
  openBRect os st title { left := 0, top := 0, right := cx, bottom := cy }
    styleFlags exStyleFlags

/-! #### easy_win32.h: `Close` and the cached-title `SetTitle` -/

/-- The member state of `easy_win32::Window`: `m_hWnd`, `m_title` (and the
native `SetWindowText` calls issued so far, recorded for observation). -/
structure WindowC where
  hWnd : Option Nat := Option.none
  title : String := "EasyWin32"
deriving DecidableEq

/-- `easy_win32::Window::Close` (easy_win32.h, lines 290–298): destroys
only when the handle is non-null. -/
def closeC (os : OS) (st : WindowC) : OS × WindowC :=
  if st.hWnd ≠ Option.none then
    (destroyWindow os st.hWnd, { st with hWnd := Option.none })
  else (os, st)

/-- `easy_win32::Window::SetTitle` (easy_win32.h, lines 375–383): when the
new title differs from the cached one, issue `::SetWindowText` and update
the cache; otherwise do nothing.  `calls` records the native
`SetWindowText` invocations issued so far. -/
def SetTitle (st : WindowC) (calls : List String) (title : String) :
    WindowC × List String :=
  if st.title ≠ title then
    ({ st with title := title }, calls ++ [title])
  else (st, calls)

/-- `easy_win32::Window::GetTitle`. -/
def GetTitle (st : WindowC) : String := st.title

/-! ### Message-pump primitives

The thread message queue is a list of pending messages in arrival order.
`PeekMessage(hWnd, PM_REMOVE)` removes the first message for the given
window; with a null filter it removes the first message outright.  A
pump's outcome is the remaining queue, the list of dispatched messages in
dispatch order, and the boolean the primitive returns. -/

/-- A queued message: target window and packed parameters. -/
structure QMsg where
  target : Nat
  msg : Nat
  wParam : Nat
  lParam : Nat
deriving DecidableEq

/-- Whether a queued message passes the `hWnd` filter of
`PeekMessage`/`GetMessage` (a null filter passes everything). -/
def matchesFilter (filt : Option Nat) (m : QMsg) : Bool :=
  match filt with
  | Option.none => true
  | Option.some h => m.target == h

/-- `::PeekMessage(&msg, hWnd, 0, 0, PM_REMOVE)`: remove and return the
first queued message passing the filter. -/
def removeFirst (filt : Option Nat) : List QMsg → Option (QMsg × List QMsg)
  | [] => Option.none
  | m :: rest =>
    if matchesFilter filt m then Option.some (m, rest)
    else
      match removeFirst filt rest with
      | Option.none => Option.none
      | Option.some (x, rest') => Option.some (x, m :: rest')

/-- The `while (::PeekMessage(...)) { Translate; Dispatch; hasEvent = true; }`
loop shared by `easywin32::Window::processEvents` and
`easywin32::ThreadWindows::processEvents`. -/
def peekLoop (filt : Option Nat) (q : List QMsg) (acc : List QMsg)
    (hasEvent : Bool) : List QMsg × List QMsg × Bool :=
  match hr : removeFirst filt q with
  | Option.none => (q, acc, hasEvent)
  | Option.some (m, q') => peekLoop filt q' (acc ++ [m]) true
termination_by q.length
decreasing_by
  have key : ∀ (l : List QMsg) (x : QMsg) (l' : List QMsg),
      removeFirst filt l = Option.some (x, l') → l'.length < l.length := by
    intro l
    induction l with
    | nil => intro x l' h; simp [removeFirst] at h
    | cons a rest ih =>
      intro x l' h
      by_cases hm : matchesFilter filt a
      · simp [removeFirst, hm] at h
        obtain ⟨h1, h2⟩ := h
        subst h2
        simp
      · simp [removeFirst, hm] at h
        cases hr2 : removeFirst filt rest with
        | none => rw [hr2] at h; simp at h
        | some p =>
          obtain ⟨y, rest'⟩ := p
          rw [hr2] at h
          simp at h
          obtain ⟨h1, h2⟩ := h
          subst h2
          simpa using Nat.succ_lt_succ (ih y rest' hr2)
  exact key _ _ _ (by assumption)

/-- `easywin32::Window::processEvents` (easywin32.h, lines 1473–1492 and
part_001): drains every pending message for this window; a null `m_hWnd`
does not touch the queue. -/
def processEvents (hWnd : Option Nat) (q : List QMsg) :
    List QMsg × List QMsg × Bool :=
  match hWnd with
  | Option.none => (q, [], false)
  | Option.some h => peekLoop (Option.some h) q [] false

/-- `easywin32::ThreadWindows::processEvents` (easywin32.h,
lines 1521–1537): drains every pending message of the thread queue. -/
def threadProcessEvents (q : List QMsg) : List QMsg × List QMsg × Bool :=
  peekLoop Option.none q [] false

/-- `easy_win32::Window::ProcessEvent` (easy_win32.h, lines 447–464): a
single `if (::PeekMessage(...))` — dispatches at most one message. -/
def ProcessEvent (hWnd : Option Nat) (q : List QMsg) :
    List QMsg × List QMsg × Bool :=
  match hWnd with
  | Option.none => (q, [], false)
  | Option.some h =>
    match removeFirst (Option.some h) q with
    | Option.none => (q, [], false)
    | Option.some (m, q') => (q', [m], true)

/-! ### Concrete fixtures used to evaluate the model at specific inputs -/

/-- A concrete environment: `DefWindowProc` returns 7 and computes the
all-100 rectangle for `WM_NCCALCSIZE`; the window is not maximized; two
files "a" and "b" are on the drop handle. -/
def envEx : Env :=
  { defWindowProc := fun _ _ _ => 7
    defCalcRect := fun _ => { left := 100, top := 100, right := 100, bottom := 100 }
    isZoomed := false
    dropFiles := ["a", "b"]
    ncRect := { left := 0, top := 0, right := 640, bottom := 480 } }

/-- easywin32.h callbacks: only a drop-file callback, returning 5. -/
def cbDropA : CallbacksA := { onDropFile := Option.some fun _ => 5 }

/-- easywin32.h callbacks: a drop-file callback returning the "not
handled" sentinel `-1`. -/
def cbDropSentinelA : CallbacksA := { onDropFile := Option.some fun _ => -1 }

/-- easywin32.h callbacks: all slots empty. -/
def cbEmptyA : CallbacksA := {}

/-- part_001 callbacks: only a drop-files callback, returning 5. -/
def cbDropB : CallbacksB := { onDropFiles := Option.some fun _ => 5 }

/-- part_001 callbacks: all slots empty. -/
def cbEmptyB : CallbacksB := {}

/-- A concrete OS state with one live window handle 5. -/
def osEx : OS :=
  { live := [5], nextHandle := 6, registered := true, createOk := true,
    adjustRect := fun r _ _ => r }

/-- An easywin32.h window whose handle is the live handle 5. -/
def stAEx : WindowA := { hWnd := Option.some 5 }

/-- A part_001 window whose handle is the live handle 5. -/
def stBEx : WindowB := { hWnd := Option.some 5 }

/-- A concrete client rectangle. -/
def rectEx : Rect := { left := 0, top := 0, right := 10, bottom := 10 }

/-- An easy_win32.h window whose cached title is "a". -/
def stTitleEx : WindowC := { title := "a" }

/-- Two queued messages for window 7. -/
def qm1 : QMsg := { target := 7, msg := WM_CLOSE, wParam := 0, lParam := 0 }

def qm2 : QMsg := { target := 7, msg := WM_TIMER, wParam := 0, lParam := 0 }

/-- easywin32.h callbacks: only an `onClose` slot, returning 5. -/
def cbCloseA : CallbacksA := { onClose := Option.some 5 }

/-- easywin32.h callbacks: only an `onWheelScroll` slot, returning `-1`. -/
def cbWheelA : CallbacksA := { onWheelScroll := Option.some fun _ _ _ => -1 }

/-- part_001 callbacks: only an `onWheelScroll` slot, returning `-1`. -/
def cbWheelB : CallbacksB := { onWheelScroll := Option.some fun _ _ _ => -1 }

/-! ### Supporting lemmas about the queue primitives -/

theorem removeFirst_length {filt : Option Nat} :
    ∀ {q : List QMsg} {m : QMsg} {q' : List QMsg},
      removeFirst filt q = Option.some (m, q') → q'.length < q.length := by
  intro q
  induction q with
  | nil => intro m q' h; simp [removeFirst] at h
  | cons a rest ih =>
    intro m q' h
    by_cases hm : matchesFilter filt a
    · simp [removeFirst, hm] at h
      obtain ⟨h1, h2⟩ := h
      subst h2
      simp
    · simp [removeFirst, hm] at h
      cases hr : removeFirst filt rest with
      | none => rw [hr] at h; simp at h
      | some p =>
        obtain ⟨x, rest'⟩ := p
        rw [hr] at h
        simp at h
        obtain ⟨h1, h2⟩ := h
        subst h2
        simpa using Nat.succ_lt_succ (ih hr)

theorem removeFirst_eq_none {filt : Option Nat} :
    ∀ {q : List QMsg}, removeFirst filt q = Option.none ↔
      q.filter (fun m => matchesFilter filt m) = [] := by
  intro q
  induction q with
  | nil => simp [removeFirst]
  | cons a rest ih =>
    by_cases hm : matchesFilter filt a = true
    · simp [removeFirst, hm]
    · have hm' : matchesFilter filt a = false := by
        cases h : matchesFilter filt a
        · rfl
        · exact absurd h hm
      cases hr : removeFirst filt rest with
      | none =>
        simp [removeFirst, hm', hr, ih.mp hr]
      | some p =>
        obtain ⟨x, rest'⟩ := p
        have hne : rest.filter (fun m => matchesFilter filt m) ≠ [] := by
          intro hnil
          rw [ih.mpr hnil] at hr
          simp at hr
        simp [removeFirst, hm', hr, hne]

theorem removeFirst_some_filters {filt : Option Nat} :
    ∀ {q : List QMsg} {m : QMsg} {q' : List QMsg},
      removeFirst filt q = Option.some (m, q') →
      q.filter (fun x => matchesFilter filt x) =
        m :: q'.filter (fun x => matchesFilter filt x) ∧
      q'.filter (fun x => !matchesFilter filt x) =
        q.filter (fun x => !matchesFilter filt x) := by
  intro q
  induction q with
  | nil => intro m q' h; simp [removeFirst] at h
  | cons a rest ih =>
    intro m q' h
    by_cases hm : matchesFilter filt a
    · simp [removeFirst, hm] at h
      obtain ⟨h1, h2⟩ := h
      subst h1; subst h2
      simp [List.filter_cons, hm]
    · simp [removeFirst, hm] at h
      cases hr : removeFirst filt rest with
      | none => rw [hr] at h; simp at h
      | some p =>
        obtain ⟨x, rest'⟩ := p
        rw [hr] at h
        simp at h
        obtain ⟨h1, h2⟩ := h
        subst h1; subst h2
        obtain ⟨ih1, ih2⟩ := ih hr
        constructor
        · simpa [List.filter_cons, hm] using ih1
        · simp [List.filter_cons, hm, ih2]

theorem peekLoop_spec (filt : Option Nat) :
    ∀ (n : Nat) (q : List QMsg) (acc : List QMsg) (b : Bool), q.length ≤ n →
      peekLoop filt q acc b =
        (q.filter (fun m => !matchesFilter filt m),
         acc ++ q.filter (fun m => matchesFilter filt m),
         b || !(q.filter (fun m => matchesFilter filt m)).isEmpty) := by
  intro n
  induction n with
  | zero =>
    intro q acc b hq
    have hq0 : q = [] := List.length_eq_zero.mp (Nat.le_zero.mp hq)
    subst hq0
    rw [peekLoop]
    simp [removeFirst]
  | succ n ih =>
    intro q acc b hq
    rw [peekLoop]
    split
    · rename_i hr
      have hfil : q.filter (fun m => matchesFilter filt m) = [] :=
        removeFirst_eq_none.mp hr
      have hall : ∀ m ∈ q, ¬ matchesFilter filt m = true :=
        List.filter_eq_nil_iff.mp hfil
      have hkeep : q.filter (fun m => !matchesFilter filt m) = q := by
        apply List.filter_eq_self.mpr
        intro m hm
        simp [hall m hm]
      simp [hfil, hkeep]
    · rename_i m q' hr
      have hlt : q'.length < q.length := removeFirst_length hr
      have hle : q'.length ≤ n := Nat.le_of_lt_succ (Nat.lt_of_lt_of_le hlt hq)
      obtain ⟨hf1, hf2⟩ := removeFirst_some_filters hr
      rw [ih q' (acc ++ [m]) true hle]
      simp [hf1, hf2]

/-! ### Supporting lemmas about bit tests and the dispatch switches -/

theorem land_two_pow_ne_zero (n i : Nat) : ((n &&& 2 ^ i) != 0) = n.testBit i := by
  rw [Nat.and_two_pow]
  cases h : n.testBit i <;> simp

/-- The dispatch switch of easywin32.h never calls `DefWindowProc` itself. -/
theorem switchA_events_no_def (env : Env) (cb : CallbacksA) (u wp lp : Nat)
    (rin : Int) : Ev.DefWindowProcCall ∉ (switchA env cb u wp lp rin).events := by
  unfold switchA
  cases hc : classifyAB u
  all_goals try simp only [caseSimple.eq_def, charCase.eq_def, pairCase.eq_def,
    keyCase.eq_def, mouseMoveCase.eq_def, wheelCase.eq_def, clickCase.eq_def,
    xbuttonCase.eq_def, focusCase.eq_def]
  all_goals repeat' split
  all_goals simp

/-- The dispatch switch of part_001 never calls `DefWindowProc` itself. -/
theorem switchB_events_no_def (env : Env) (cb : CallbacksB) (u wp lp : Nat)
    (rin : Int) : Ev.DefWindowProcCall ∉ (switchB env cb u wp lp rin).events := by
  unfold switchB
  cases hc : classifyAB u
  all_goals try simp only [caseSimple.eq_def, charCase.eq_def, pairCase.eq_def,
    keyCase.eq_def, mouseMoveCase.eq_def, wheelCase.eq_def, clickCase.eq_def,
    xbuttonCase.eq_def, focusCase.eq_def]
  all_goals repeat' split
  all_goals simp

/-- The dispatch switch of easy_win32.h never calls `DefWindowProc` itself. -/
theorem switchC_events_no_def (cb : CallbacksC) (u wp lp : Nat)
    (rin : Int) : Ev.DefWindowProcCall ∉ (switchC cb u wp lp rin).events := by
  unfold switchC
  cases hc : classifyC u
  all_goals try simp only [caseSimple.eq_def, charCase.eq_def, pairCase.eq_def,
    keyCase.eq_def, mouseMoveCase.eq_def, wheelCase.eq_def, clickCase.eq_def,
    xbuttonCase.eq_def, focusCase.eq_def]
  all_goals repeat' split
  all_goals simp

theorem filter_isCallback_map_dropFile (l : List String) :
    (l.map Ev.OnDropFile).filter Ev.isCallback = l.map Ev.OnDropFile := by
  induction l with
  | nil => rfl
  | cons a t ih => simp [Ev.isCallback, ih]

theorem count_dragfinish_map_dropFile (l : List String) :
    (l.map Ev.OnDropFile).count Ev.DragFinishCall = 0 := by
  induction l with
  | nil => rfl
  | cons a t ih => simp [List.count_cons, ih]

/-- `classifyAB WM_DROPFILES` (`0x0233 = 563`) selects the drop-files case. -/
theorem classifyAB_dropFiles : classifyAB 563 = CaseAB.dropFiles := rfl

/-- `classifyAB WM_MOUSEWHEEL` (`0x020A = 522`). -/
theorem classifyAB_mouseWheel : classifyAB 522 = CaseAB.wheelVertical := rfl

/-- `classifyAB WM_MOUSEHWHEEL` (`0x020E = 526`). -/
theorem classifyAB_mouseHWheel : classifyAB 526 = CaseAB.wheelHorizontal := rfl

/-- `classifyAB WM_KEYDOWN` (`0x0100 = 256`). -/
theorem classifyAB_keyDown : classifyAB 256 = CaseAB.keyDown := rfl

/-- `classifyAB WM_SYSKEYDOWN` (`0x0104 = 260`). -/
theorem classifyAB_sysKeyDown : classifyAB 260 = CaseAB.keyDown := rfl

/-- `classifyAB WM_KEYUP` (`0x0101 = 257`). -/
theorem classifyAB_keyUp : classifyAB 257 = CaseAB.keyUp := rfl

/-- `classifyAB WM_SYSKEYUP` (`0x0105 = 261`). -/
theorem classifyAB_sysKeyUp : classifyAB 261 = CaseAB.keyUp := rfl

/-- `classifyAB WM_XBUTTONDOWN` (`0x020B = 523`). -/
theorem classifyAB_xbuttonDown : classifyAB 523 = CaseAB.xbutton := rfl

/-- `classifyAB WM_XBUTTONUP` (`0x020C = 524`). -/
theorem classifyAB_xbuttonUp : classifyAB 524 = CaseAB.xbutton := rfl

/-- `classifyAB WM_XBUTTONDBLCLK` (`0x020D = 525`). -/
theorem classifyAB_xbuttonDblClk : classifyAB 525 = CaseAB.xbutton := rfl

/-- How the tail of the easywin32.h procedure routes the switch outcome:
an early return is returned as is, a non-sentinel result is returned with
no `DefWindowProc` call, and the sentinel `-1` falls through to
`DefWindowProc`. -/
theorem procAfterForwardA_spec (env : Env) (cb : CallbacksA) (u wp lp : Nat)
    (tr0 : List Ev) (htr : Ev.DefWindowProcCall ∉ tr0) :
    ((switchA env cb u wp lp (-1)).early = Option.none →
      (switchA env cb u wp lp (-1)).result ≠ -1 →
      (procAfterForwardA env cb u wp lp tr0).result =
        (switchA env cb u wp lp (-1)).result ∧
      Ev.DefWindowProcCall ∉ (procAfterForwardA env cb u wp lp tr0).trace) ∧
    ((switchA env cb u wp lp (-1)).early = Option.none →
      (switchA env cb u wp lp (-1)).result = -1 →
      (procAfterForwardA env cb u wp lp tr0).result = env.defWindowProc u wp lp ∧
      Ev.DefWindowProcCall ∈ (procAfterForwardA env cb u wp lp tr0).trace) ∧
    (∀ v, (switchA env cb u wp lp (-1)).early = Option.some v →
      (procAfterForwardA env cb u wp lp tr0).result = v ∧
      Ev.DefWindowProcCall ∉ (procAfterForwardA env cb u wp lp tr0).trace) := by
  have hev := switchA_events_no_def env cb u wp lp (-1)
  refine ⟨?_, ?_, ?_⟩
  · intro hearly hres
    simp only [procAfterForwardA, hearly]
    rw [if_pos hres]
    simp [htr, hev]
  · intro hearly hres
    simp only [procAfterForwardA, hearly]
    rw [if_neg (by simp [hres])]
    simp [callDef]
  · intro v hearly
    simp only [procAfterForwardA, hearly]
    simp [htr, hev]

/-- How the tail of the easy_win32.h procedure routes the switch outcome:
a zero result is returned with no `DefWindowProc` call, anything else
falls through to `DefWindowProc`. -/
theorem finishC_spec (env : Env) (cbc : CallbacksC) (u wp lp : Nat)
    (rin : Int) (tr0 : List Ev) (htr : Ev.DefWindowProcCall ∉ tr0) :
    ((switchC cbc u wp lp rin).result = 0 →
      (finishC env cbc u wp lp rin tr0).result = 0 ∧
      Ev.DefWindowProcCall ∉ (finishC env cbc u wp lp rin tr0).trace) ∧
    ((switchC cbc u wp lp rin).result ≠ 0 →
      (finishC env cbc u wp lp rin tr0).result = env.defWindowProc u wp lp ∧
      Ev.DefWindowProcCall ∈ (finishC env cbc u wp lp rin tr0).trace) := by
  have hev := switchC_events_no_def cbc u wp lp rin
  constructor
  · intro hres
    simp only [finishC]
    rw [if_pos hres]
    simp [hres, htr, hev]
  · intro hres
    simp only [finishC]
    rw [if_neg hres]
    simp [callDef]

/-- With a window attached and a message outside the specially handled
ones, the easywin32.h procedure with no forward callback reduces to
`procAfterForwardA` with an empty trace prefix. -/
theorem procedureA_eq_after_none (et : Bool) (env : Env) (cb : CallbacksA)
    (u wp lp : Nat) (h1 : u ≠ WM_CREATE) (h2 : u ≠ WM_NCCALCSIZE)
    (h3 : u ≠ WM_DESTROY) (hfw : cb.forwardMessage = Option.none) :
    procedureA et env (Option.some cb) u wp lp =
      procAfterForwardA env cb u wp lp [] := by
  simp only [procedureA, if_neg h1, if_neg h2, if_neg h3, hfw]

/-- With a forward callback that returns the sentinel `-1`, the
easywin32.h procedure reduces to `procAfterForwardA` after recording the
forward invocation. -/
theorem procedureA_eq_after_fwd (et : Bool) (env : Env) (cb : CallbacksA)
    (u wp lp : Nat) (h1 : u ≠ WM_CREATE) (h2 : u ≠ WM_NCCALCSIZE)
    (h3 : u ≠ WM_DESTROY) (f : Nat → Nat → Nat → Int)
    (hfw : cb.forwardMessage = Option.some f) (hval : f u wp lp = -1) :
    procedureA et env (Option.some cb) u wp lp =
      procAfterForwardA env cb u wp lp [Ev.Forward u wp lp] := by
  simp only [procedureA, if_neg h1, if_neg h2, if_neg h3, hfw]
  rw [if_neg (by simp [hval])]

/-- With a window attached, an ordinary message and no forward callback,
the part_001 procedure reduces to `procAfterForwardB` with an empty trace
prefix. -/
theorem procedureB_eq_after_none (sc : Bool) (env : Env) (cb : CallbacksB)
    (u wp lp : Nat) (h1 : u ≠ WM_CREATE) (h2 : u ≠ WM_NCCALCSIZE)
    (h3 : u ≠ WM_DESTROY) (hfw : cb.forwardMessage = Option.none) :
    procedureB sc env (Option.some cb) u wp lp =
      procAfterForwardB env cb u wp lp [] := by
  simp only [procedureB, if_neg h1, if_neg h2, if_neg h3, hfw]

/-- The callback invocations of the easywin32.h procedure (no forward
callback, no early return) are exactly those of its dispatch switch. -/
theorem procA_callbacks_of_switch (et : Bool) (env : Env) (cb : CallbacksA)
    (u wp lp : Nat) (h1 : u ≠ WM_CREATE) (h2 : u ≠ WM_NCCALCSIZE)
    (h3 : u ≠ WM_DESTROY) (hfw : cb.forwardMessage = Option.none)
    (hearly : (switchA env cb u wp lp (-1)).early = Option.none) :
    (procedureA et env (Option.some cb) u wp lp).trace.filter Ev.isCallback =
      (switchA env cb u wp lp (-1)).events.filter Ev.isCallback := by
  rw [procedureA_eq_after_none et env cb u wp lp h1 h2 h3 hfw]
  simp only [procAfterForwardA, hearly]
  by_cases hres : (switchA env cb u wp lp (-1)).result = -1
  · rw [if_neg (by simp [hres])]
    simp [List.filter_append, Ev.isCallback]
  · rw [if_pos hres]
    simp

/-- The callback invocations of the part_001 procedure (no forward
callback) are exactly those of its dispatch switch. -/
theorem procB_callbacks_of_switch (sc : Bool) (env : Env) (cb : CallbacksB)
    (u wp lp : Nat) (h1 : u ≠ WM_CREATE) (h2 : u ≠ WM_NCCALCSIZE)
    (h3 : u ≠ WM_DESTROY) (hfw : cb.forwardMessage = Option.none) :
    (procedureB sc env (Option.some cb) u wp lp).trace.filter Ev.isCallback =
      (switchB env cb u wp lp (-1)).events.filter Ev.isCallback := by
  rw [procedureB_eq_after_none sc env cb u wp lp h1 h2 h3 hfw]
  simp only [procAfterForwardB]
  by_cases hres : (switchB env cb u wp lp (-1)).result = -1
  · rw [if_neg (by simp [hres])]
    simp [List.filter_append, Ev.isCallback]
  · rw [if_pos hres]
    simp

/-- With a window attached, a non-`WM_DESTROY` message and no forward
callback, the easy_win32.h procedure reduces to `finishC` with the
initial `result` value 1 and an empty trace prefix. -/
theorem procedureC_eq_finish_none (env : Env) (cbc : CallbacksC)
    (u wp lp : Nat) (h3 : u ≠ WM_DESTROY)
    (hfw : cbc.forwardMessage = Option.none) :
    procedureC env (Option.some cbc) u wp lp = finishC env cbc u wp lp 1 [] := by
  simp only [procedureC, if_neg h3, hfw]

/-- With a forward callback that returns a non-zero value, the
easy_win32.h procedure reduces to `finishC` with that value as the
incoming `result` after recording the forward invocation. -/
theorem procedureC_eq_finish_fwd (env : Env) (cbc : CallbacksC)
    (u wp lp : Nat) (h3 : u ≠ WM_DESTROY) (f : Nat → Nat → Nat → Int)
    (hfw : cbc.forwardMessage = Option.some f) (hval : f u wp lp ≠ 0) :
    procedureC env (Option.some cbc) u wp lp =
      finishC env cbc u wp lp (f u wp lp) [Ev.Forward u wp lp] := by
  simp only [procedureC, if_neg h3, hfw]
  rw [if_neg hval]

/-! ### Claim theorems -/

/-- C10: the `Flags<EnumType>` wrapper obeys standard bitmask algebra: a
default-constructed `Flags` is empty (`none()` true, `any()` false, the
`bool` conversion false); for all flag sets `a`, `b` and every enum bit
`2 ^ i`, `(a | b).has x ↔ a.has x ∨ b.has x` and
`(a & ~b).has x ↔ a.has x ∧ ¬ b.has x`; `operator|` is commutative and
associative with the empty `Flags` as identity; and `clear()` yields the
empty set. -/
theorem flags_bitmask_algebra (a b c : Flags) (i : Nat) (hi : i < 32) :
    (Flags.empty.none = true ∧ Flags.empty.any = false ∧
      Flags.empty.toBool = false) ∧
    ((a.orF b).has (2 ^ i) = (a.has (2 ^ i) || b.has (2 ^ i))) ∧
    ((a.andF (Flags.notF b)).has (2 ^ i) = (a.has (2 ^ i) && !(b.has (2 ^ i)))) ∧
    (a.orF b = b.orF a) ∧
    ((a.orF b).orF c = a.orF (b.orF c)) ∧
    (a.orF Flags.empty = a) ∧
    (Flags.empty.orF a = a) ∧
    (a.clear = Flags.empty) := by
  obtain ⟨af⟩ := a
  obtain ⟨bf⟩ := b
  obtain ⟨cf⟩ := c
  refine ⟨⟨rfl, rfl, rfl⟩, ?_, ?_, ?_, ?_, ?_, ?_, rfl⟩
  · show ((af ||| bf) &&& 2 ^ i != 0) = ((af &&& 2 ^ i != 0) || (bf &&& 2 ^ i != 0))
    rw [land_two_pow_ne_zero, land_two_pow_ne_zero, land_two_pow_ne_zero,
      Nat.testBit_lor]
  · show ((af &&& (bf ^^^ dwordMask)) &&& 2 ^ i != 0) =
      ((af &&& 2 ^ i != 0) && !(bf &&& 2 ^ i != 0))
    rw [land_two_pow_ne_zero, land_two_pow_ne_zero, land_two_pow_ne_zero,
      Nat.testBit_land, Nat.testBit_xor]
    have hm : dwordMask.testBit i = true := by
      show ((2 : Nat) ^ 32 - 1).testBit i = true
      rw [Nat.testBit_two_pow_sub_one]
      simpa using hi
    rw [hm]
    cases af.testBit i <;> cases bf.testBit i <;> rfl
  · show Flags.mk (af ||| bf) = Flags.mk (bf ||| af)
    rw [Nat.lor_comm]
  · show Flags.mk (af ||| bf ||| cf) = Flags.mk (af ||| (bf ||| cf))
    rw [Nat.lor_assoc]
  · show Flags.mk (af ||| 0) = Flags.mk af
    rw [Nat.or_zero]
  · show Flags.mk (0 ||| af) = Flags.mk af
    rw [Nat.zero_or]

/-- Witness for C10: the algebra evaluated at concrete flag sets and the
bit `2 ^ 1`. -/
theorem flags_bitmask_algebra_witness :
    1 < 32 ∧
    ((Flags.mk 3).orF (Flags.mk 5)).has (2 ^ 1) =
      ((Flags.mk 3).has (2 ^ 1) || (Flags.mk 5).has (2 ^ 1)) ∧
    ((Flags.mk 3).andF (Flags.notF (Flags.mk 5))).has (2 ^ 1) =
      ((Flags.mk 3).has (2 ^ 1) && !((Flags.mk 5).has (2 ^ 1))) :=
  ⟨by decide,
   (flags_bitmask_algebra ⟨3⟩ ⟨5⟩ ⟨9⟩ 1 (by decide)).2.1,
   (flags_bitmask_algebra ⟨3⟩ ⟨5⟩ ⟨9⟩ 1 (by decide)).2.2.1⟩

/-- C4: in all three procedure versions, `WM_DESTROY` posts the quit
message and returns 0 as fully handled; the trace is exactly
`[PostQuit]` — it is never forwarded to `forwardMessage`, to an event
callback, or to `DefWindowProc`. -/
theorem destroy_fully_handled (et sc : Bool) (env : Env)
    (wA : Option CallbacksA) (wB : Option CallbacksB) (wC : Option CallbacksC)
    (wp lp : Nat) :
    procedureA et env wA WM_DESTROY wp lp =
      { result := 0, trace := [Ev.PostQuit], ncRect := env.ncRect } ∧
    procedureB sc env wB WM_DESTROY wp lp =
      { result := 0, trace := [Ev.PostQuit], ncRect := env.ncRect } ∧
    procedureC env wC WM_DESTROY wp lp =
      { result := 0, trace := [Ev.PostQuit], ncRect := env.ncRect } :=
  ⟨rfl, rfl, rfl⟩

/-- C7: `close` is safe and idempotent in both versions: it always leaves
a null handle, closing twice equals closing once, and closing a window
that was never opened (null handle) changes nothing. -/
theorem close_safe_idempotent (os : OS) (stA : WindowA) (stC : WindowC) :
    ((closeA os stA).2.hWnd = Option.none) ∧
    (closeA (closeA os stA).1 (closeA os stA).2 = closeA os stA) ∧
    (closeA os { hWnd := Option.none } = (os, { hWnd := Option.none })) ∧
    ((closeC os stC).2.hWnd = Option.none) ∧
    (closeC (closeC os stC).1 (closeC os stC).2 = closeC os stC) ∧
    (closeC os { stC with hWnd := Option.none } =
      (os, { stC with hWnd := Option.none })) := by
  refine ⟨rfl, rfl, rfl, ?_, ?_, ?_⟩
  · by_cases h : stC.hWnd = Option.none
    · simp [closeC, h]
    · simp [closeC, h]
  · by_cases h : stC.hWnd = Option.none
    · simp [closeC, h]
    · simp [closeC, h]
  · simp [closeC]

/-- C9: the cached-title `SetTitle` of easy_win32.h: setting the current
title again is a no-op that issues no native `SetWindowText` call; setting
a different title issues exactly one native call, updates the cache, and
`GetTitle` returns the new value. -/
theorem settitle_cached_idempotent (st : WindowC) (calls : List String)
    (t : String) :
    (st.title = t → SetTitle st calls t = (st, calls)) ∧
    (st.title ≠ t →
      (SetTitle st calls t).1.title = t ∧
      (SetTitle st calls t).2 = calls ++ [t] ∧
      GetTitle (SetTitle st calls t).1 = t) := by
  constructor
  · intro h
    simp [SetTitle, h]
  · intro h
    simp [SetTitle, h, GetTitle]

/-- Witness for C9: setting the same title "a" is a no-op; setting "b"
issues exactly one native call. -/
theorem settitle_cached_idempotent_witness :
    SetTitle stTitleEx [] "a" = (stTitleEx, []) ∧
    (SetTitle stTitleEx [] "b").2 = [] ++ ["b"] :=
  ⟨(settitle_cached_idempotent stTitleEx [] "a").1 rfl,
   ((settitle_cached_idempotent stTitleEx [] "b").2 (by decide)).2.1⟩

/-- C6: while the stored handle already identifies a live window, every
overload of `open` (easywin32.h: rectangle / size, each with explicit or
default title; part_001: rectangle / size) is a no-op: no native window is
created (the OS state is unchanged) and the `Window` state — handle
included — is unchanged. -/
theorem open_noop_when_already_open (os : OS) (stA : WindowA) (stB : WindowB)
    (title : String) (bounds : Rect) (cx cy : Int) (sf ef : Flags)
    (sfB : FlagsM) (efB : Nat)
    (hA : isWindow os stA.hWnd = true) (hB : isWindow os stB.hWnd = true) :
    openARect os stA title bounds sf ef = (os, stA) ∧
    openASize os stA title cx cy sf ef = (os, stA) ∧
    openARectDefaultTitle os stA bounds sf ef = (os, stA) ∧
    openASizeDefaultTitle os stA cx cy sf ef = (os, stA) ∧
    openBRect os stB title bounds sfB efB = (os, stB) ∧
    openBSize os stB title cx cy sfB efB = (os, stB) := by
  refine ⟨?_, ?_, ?_, ?_, ?_, ?_⟩ <;>
    simp [openARect, openASize, openARectDefaultTitle, openASizeDefaultTitle,
      openBRect, openBSize, hA, hB]

/-- Witness for C6: window handle 5 is live in `osEx`, and `open` leaves
both window versions and the OS state unchanged. -/
theorem open_noop_when_already_open_witness :
    isWindow osEx stAEx.hWnd = true ∧
    openARect osEx stAEx "w" rectEx ⟨0⟩ ⟨0⟩ = (osEx, stAEx) ∧
    openBRect osEx stBEx "w" rectEx ⟨0⟩ 0 = (osEx, stBEx) :=
  ⟨rfl,
   (open_noop_when_already_open osEx stAEx stBEx "w" rectEx 1 2 ⟨0⟩ ⟨0⟩ ⟨0⟩ 0
      rfl rfl).1,
   (open_noop_when_already_open osEx stAEx stBEx "w" rectEx 1 2 ⟨0⟩ ⟨0⟩ ⟨0⟩ 0
      rfl rfl).2.2.2.2.1⟩

/-- C8 (amended): the non-blocking pump primitives are total functions of
the queue state.  `processEvents` (easywin32.h / part_001) and
`ThreadWindows::processEvents` drain all pending messages (those passing
their filter), dispatch each of them in order, and return true iff at
least one message was processed, returning false with nothing dispatched
on an empty match set or a null handle; `easy_win32::Window::ProcessEvent`
instead dispatches at most ONE pending message (the first one), returning
true iff one was dispatched. -/
theorem event_pump_spec (h : Nat) (q : List QMsg) (hw : Option Nat) :
    (processEvents (Option.some h) q =
      (q.filter (fun m => !matchesFilter (Option.some h) m),
       q.filter (fun m => matchesFilter (Option.some h) m),
       !(q.filter (fun m => matchesFilter (Option.some h) m)).isEmpty)) ∧
    (processEvents Option.none q = (q, [], false)) ∧
    (threadProcessEvents q = ([], q, !q.isEmpty)) ∧
    ((ProcessEvent hw q).2.1.length ≤ 1) ∧
    ((ProcessEvent hw q).2.2 = !(ProcessEvent hw q).2.1.isEmpty) ∧
    (ProcessEvent Option.none q = (q, [], false)) ∧
    (removeFirst (Option.some h) q = Option.none →
       ProcessEvent (Option.some h) q = (q, [], false)) ∧
    (∀ m q', removeFirst (Option.some h) q = Option.some (m, q') →
       ProcessEvent (Option.some h) q = (q', [m], true) ∧
       q.filter (fun x => matchesFilter (Option.some h) x) =
         m :: q'.filter (fun x => matchesFilter (Option.some h) x) ∧
       q'.filter (fun x => !matchesFilter (Option.some h) x) =
         q.filter (fun x => !matchesFilter (Option.some h) x)) := by
  refine ⟨?_, rfl, ?_, ?_, ?_, rfl, ?_, ?_⟩
  · show peekLoop (Option.some h) q [] false = _
    rw [peekLoop_spec (Option.some h) q.length q [] false (Nat.le_refl _)]
    simp
  · show peekLoop Option.none q [] false = _
    rw [peekLoop_spec Option.none q.length q [] false (Nat.le_refl _)]
    simp [matchesFilter]
  · cases hw with
    | none => simp [ProcessEvent]
    | some h' =>
      simp only [ProcessEvent]
      cases removeFirst (Option.some h') q with
      | none => simp
      | some p => obtain ⟨m, q'⟩ := p; simp
  · cases hw with
    | none => simp [ProcessEvent]
    | some h' =>
      simp only [ProcessEvent]
      cases removeFirst (Option.some h') q with
      | none => simp
      | some p => obtain ⟨m, q'⟩ := p; simp
  · intro hr
    simp [ProcessEvent, hr]
  · intro m q' hr
    refine ⟨by simp [ProcessEvent, hr], ?_, ?_⟩
    · exact (removeFirst_some_filters hr).1
    · exact (removeFirst_some_filters hr).2

/-- Witness for C8: with a single message queued for window 7,
`ProcessEvent` dispatches it and returns true. -/
theorem event_pump_spec_witness :
    ProcessEvent (Option.some 7) [qm1] = ([], [qm1], true) :=
  ((event_pump_spec 7 [qm1] (Option.some 7)).2.2.2.2.2.2.2 qm1 []
    (by decide)).1

/-- Counterexample for C8 as stated: `easy_win32::Window::ProcessEvent`
does NOT drain all pending messages.  With two messages queued for
window 7 it dispatches only the first and leaves the queue non-empty. -/
theorem event_pump_counterexample :
    ¬ ((ProcessEvent (Option.some 7) [qm1, qm2]).2.1 = [qm1, qm2] ∧
       (ProcessEvent (Option.some 7) [qm1, qm2]).1 = []) := by
  decide

/-- C2 (amended): on `WM_NCCALCSIZE` for a skip-caption window, the
part_001 procedure first invokes the default native sizing computation,
then restores the original top inset (plus the fixed 8-px frame constant
when maximized), keeping the other edges of the default computation and
returning its result.  The easywin32.h (`EraseTitleBar`) variant does NOT
invoke the default computation: it insets left/right/bottom of the
original rectangle by the 8-px frame directly, moves top down by 8 only
when maximized, and returns 0. -/
theorem nccalcsize_skip_caption (et sc : Bool) (env : Env)
    (wB : Option CallbacksB) (wA : Option CallbacksA) (wp lp : Nat) :
    (procedureB true env wB WM_NCCALCSIZE wp lp =
      { result := env.defWindowProc WM_NCCALCSIZE wp lp,
        trace := [Ev.DefWindowProcCall],
        ncRect := { env.defCalcRect env.ncRect with
                    top := env.ncRect.top + (if env.isZoomed then 8 else 0) } }) ∧
    (procedureA true env wA WM_NCCALCSIZE wp lp =
      { result := 0,
        trace := [],
        ncRect := { left := env.ncRect.left + 8,
                    top := env.ncRect.top + (if env.isZoomed then 8 else 0),
                    right := env.ncRect.right - 8,
                    bottom := env.ncRect.bottom - 8 } }) := by
  constructor
  · cases hz : env.isZoomed <;>
      simp [procedureB, callDef, WM_CREATE, WM_NCCALCSIZE, hz]
  · cases hz : env.isZoomed <;>
      simp [procedureA, callDef, WM_CREATE, WM_NCCALCSIZE, hz]

/-- C1 (amended): short-circuit dispatch.  In the easywin32.h procedure
(sentinel `-1`): a forward callback returning a non-sentinel value owns
the result and suppresses `DefWindowProc`; otherwise, when the switch
produces a non-sentinel result it is returned with no `DefWindowProc`
call, and when it leaves the sentinel (callback returned `-1`, slot
empty, or unmatched message) `DefWindowProc` runs and its result is
returned — EXCEPT `WM_DROPFILES` with a registered drop-file callback,
which always returns 0 without `DefWindowProc` regardless of the
callback's returned values (the switch's early return, surfaced here as
`early = some 0`).  In the easy_win32.h procedure (handled value `0`): a
forward callback returning 0 owns the result; otherwise a zero switch
result is returned with no `DefWindowProc` call and a non-zero one falls
through to `DefWindowProc`. -/
theorem short_circuit_dispatch (et : Bool) (env : Env) (cb : CallbacksA)
    (cbc : CallbacksC) (u wp lp : Nat)
    (h1 : u ≠ WM_CREATE) (h2 : u ≠ WM_NCCALCSIZE) (h3 : u ≠ WM_DESTROY) :
    ((∀ f, cb.forwardMessage = Option.some f → f u wp lp ≠ -1 →
        (procedureA et env (Option.some cb) u wp lp).result = f u wp lp ∧
        Ev.DefWindowProcCall ∉ (procedureA et env (Option.some cb) u wp lp).trace) ∧
     ((cb.forwardMessage = Option.none ∨
        (∃ f, cb.forwardMessage = Option.some f ∧ f u wp lp = -1)) →
       (((switchA env cb u wp lp (-1)).early = Option.none →
          (switchA env cb u wp lp (-1)).result ≠ -1 →
          (procedureA et env (Option.some cb) u wp lp).result =
            (switchA env cb u wp lp (-1)).result ∧
          Ev.DefWindowProcCall ∉
            (procedureA et env (Option.some cb) u wp lp).trace) ∧
        ((switchA env cb u wp lp (-1)).early = Option.none →
          (switchA env cb u wp lp (-1)).result = -1 →
          (procedureA et env (Option.some cb) u wp lp).result =
            env.defWindowProc u wp lp ∧
          Ev.DefWindowProcCall ∈
            (procedureA et env (Option.some cb) u wp lp).trace) ∧
        (∀ v, (switchA env cb u wp lp (-1)).early = Option.some v →
          (procedureA et env (Option.some cb) u wp lp).result = v ∧
          Ev.DefWindowProcCall ∉
            (procedureA et env (Option.some cb) u wp lp).trace)))) ∧
    ((∀ f, cbc.forwardMessage = Option.some f → f u wp lp = 0 →
        (procedureC env (Option.some cbc) u wp lp).result = 0 ∧
        Ev.DefWindowProcCall ∉ (procedureC env (Option.some cbc) u wp lp).trace) ∧
     (cbc.forwardMessage = Option.none →
        ((switchC cbc u wp lp 1).result = 0 →
          (procedureC env (Option.some cbc) u wp lp).result = 0 ∧
          Ev.DefWindowProcCall ∉
            (procedureC env (Option.some cbc) u wp lp).trace) ∧
        ((switchC cbc u wp lp 1).result ≠ 0 →
          (procedureC env (Option.some cbc) u wp lp).result =
            env.defWindowProc u wp lp ∧
          Ev.DefWindowProcCall ∈
            (procedureC env (Option.some cbc) u wp lp).trace)) ∧
     (∀ f, cbc.forwardMessage = Option.some f → f u wp lp ≠ 0 →
        ((switchC cbc u wp lp (f u wp lp)).result = 0 →
          (procedureC env (Option.some cbc) u wp lp).result = 0 ∧
          Ev.DefWindowProcCall ∉
            (procedureC env (Option.some cbc) u wp lp).trace) ∧
        ((switchC cbc u wp lp (f u wp lp)).result ≠ 0 →
          (procedureC env (Option.some cbc) u wp lp).result =
            env.defWindowProc u wp lp ∧
          Ev.DefWindowProcCall ∈
            (procedureC env (Option.some cbc) u wp lp).trace))) := by
  constructor
  · constructor
    · intro f hf hne
      simp only [procedureA, if_neg h1, if_neg h2, if_neg h3, hf]
      rw [if_pos hne]
      simp
    · intro hpass
      have hred : procedureA et env (Option.some cb) u wp lp =
          procAfterForwardA env cb u wp lp [] ∨
        procedureA et env (Option.some cb) u wp lp =
          procAfterForwardA env cb u wp lp [Ev.Forward u wp lp] := by
        rcases hpass with hnone | ⟨f, hf, hval⟩
        · exact Or.inl (procedureA_eq_after_none et env cb u wp lp h1 h2 h3 hnone)
        · exact Or.inr (procedureA_eq_after_fwd et env cb u wp lp h1 h2 h3 f hf hval)
      rcases hred with hred | hred <;>
      · rw [hred]
        exact procAfterForwardA_spec env cb u wp lp _ (by simp)
  · refine ⟨?_, ?_, ?_⟩
    · intro f hf hz
      simp only [procedureC, if_neg h3, hf]
      rw [if_pos hz]
      simp [hz]
    · intro hfw
      rw [procedureC_eq_finish_none env cbc u wp lp h3 hfw]
      exact finishC_spec env cbc u wp lp 1 [] (by simp)
    · intro f hf hval
      rw [procedureC_eq_finish_fwd env cbc u wp lp h3 f hf hval]
      exact finishC_spec env cbc u wp lp (f u wp lp) [Ev.Forward u wp lp] (by simp)

/-- Counterexample for C1 as stated: in easywin32.h, a registered
drop-file callback that returns the "not handled" sentinel `-1` on
`WM_DROPFILES` does NOT hand the message to `DefWindowProc`: the
procedure returns 0 and `DefWindowProc` is never invoked, contrary to the
claim that a sentinel-returning callback leads to `DefWindowProc` and its
result. -/
theorem short_circuit_counterexample :
    ¬ (Ev.DefWindowProcCall ∈
        (procedureA false envEx (Option.some cbDropSentinelA)
          WM_DROPFILES 0 0).trace ∧
       (procedureA false envEx (Option.some cbDropSentinelA)
          WM_DROPFILES 0 0).result = envEx.defWindowProc WM_DROPFILES 0 0) := by
  decide

/-- Witness for C1: with only an `onClose` callback returning 5, a
`WM_CLOSE` message yields result 5 and no `DefWindowProc` call. -/
theorem short_circuit_dispatch_witness :
    (procedureA false envEx (Option.some cbCloseA) WM_CLOSE 0 0).result = 5 ∧
    Ev.DefWindowProcCall ∉
      (procedureA false envEx (Option.some cbCloseA) WM_CLOSE 0 0).trace := by
  have h := ((short_circuit_dispatch false envEx cbCloseA {} WM_CLOSE 0 0
    (by decide) (by decide) (by decide)).1.2 (Or.inl rfl)).1
    (by decide) (by decide)
  exact ⟨h.1.trans (by decide), h.2⟩

/-- C5: correctly decoded single callback invocations.  With no forward
callback and the matching slot registered, each input message produces
exactly one invocation of its callback (the trace contains exactly one
callback event), with the payload decoded from the packed parameters:
wheel messages pass the signed delta `HIWORD(wParam)/WHEEL_DELTA` (as dy
for the vertical wheel and dx for the horizontal one) together with the
modifier bitmask `wParam & 127`; X-button messages map sub-code 1/2 to
`XButton1`/`XButton2` with the action given by the message kind; key-down
messages map bit 30 of `lParam` to `Repeat` versus `Press` and key-up
messages to `Release`.  The final clause shows the wheel delta equals the
signed detent count, so its sign matches the scroll direction. -/
theorem input_decoding_per_message (et sc : Bool) (env : Env)
    (cb : CallbacksA) (cbB : CallbacksB) (wp lp : Nat) :
    (∀ f, cb.forwardMessage = Option.none → cb.onWheelScroll = Option.some f →
      (procedureA et env (Option.some cb) WM_MOUSEWHEEL wp lp).trace.filter Ev.isCallback = [Ev.OnWheelScroll 0 (wheelDelta wp) (mouseStateOf wp)]) ∧
    (∀ f, cb.forwardMessage = Option.none → cb.onWheelScroll = Option.some f →
      (procedureA et env (Option.some cb) WM_MOUSEHWHEEL wp lp).trace.filter Ev.isCallback = [Ev.OnWheelScroll (wheelDelta wp) 0 (mouseStateOf wp)]) ∧
    (∀ f, cb.forwardMessage = Option.none → cb.onKeyboardPress = Option.some f →
      (procedureA et env (Option.some cb) WM_KEYDOWN wp lp).trace.filter Ev.isCallback = [Ev.OnKeyboardPress wp (if repeatBit lp then KeyAction.Repeat else KeyAction.Press)]) ∧
    (∀ f, cb.forwardMessage = Option.none → cb.onKeyboardPress = Option.some f →
      (procedureA et env (Option.some cb) WM_SYSKEYDOWN wp lp).trace.filter Ev.isCallback = [Ev.OnKeyboardPress wp (if repeatBit lp then KeyAction.Repeat else KeyAction.Press)]) ∧
    (∀ f, cb.forwardMessage = Option.none → cb.onKeyboardPress = Option.some f →
      (procedureA et env (Option.some cb) WM_KEYUP wp lp).trace.filter Ev.isCallback = [Ev.OnKeyboardPress wp KeyAction.Release]) ∧
    (∀ f, cb.forwardMessage = Option.none → cb.onKeyboardPress = Option.some f →
      (procedureA et env (Option.some cb) WM_SYSKEYUP wp lp).trace.filter Ev.isCallback = [Ev.OnKeyboardPress wp KeyAction.Release]) ∧
    (∀ f, cb.forwardMessage = Option.none → cb.onMouseClick = Option.some f → getXButtonWParam wp = XBUTTON1 →
      (procedureA et env (Option.some cb) WM_XBUTTONDOWN wp lp).trace.filter Ev.isCallback = [Ev.OnMouseClick MouseButton.XButton1 MouseAction.Down (mouseStateOf wp)]) ∧
    (∀ f, cb.forwardMessage = Option.none → cb.onMouseClick = Option.some f → getXButtonWParam wp = XBUTTON2 →
      (procedureA et env (Option.some cb) WM_XBUTTONDOWN wp lp).trace.filter Ev.isCallback = [Ev.OnMouseClick MouseButton.XButton2 MouseAction.Down (mouseStateOf wp)]) ∧
    (∀ f, cb.forwardMessage = Option.none → cb.onMouseClick = Option.some f → getXButtonWParam wp = XBUTTON1 →
      (procedureA et env (Option.some cb) WM_XBUTTONUP wp lp).trace.filter Ev.isCallback = [Ev.OnMouseClick MouseButton.XButton1 MouseAction.Up (mouseStateOf wp)]) ∧
    (∀ f, cb.forwardMessage = Option.none → cb.onMouseClick = Option.some f → getXButtonWParam wp = XBUTTON2 →
      (procedureA et env (Option.some cb) WM_XBUTTONUP wp lp).trace.filter Ev.isCallback = [Ev.OnMouseClick MouseButton.XButton2 MouseAction.Up (mouseStateOf wp)]) ∧
    (∀ f, cb.forwardMessage = Option.none → cb.onMouseClick = Option.some f → getXButtonWParam wp = XBUTTON1 →
      (procedureA et env (Option.some cb) WM_XBUTTONDBLCLK wp lp).trace.filter Ev.isCallback = [Ev.OnMouseClick MouseButton.XButton1 MouseAction.DoubleClick (mouseStateOf wp)]) ∧
    (∀ f, cb.forwardMessage = Option.none → cb.onMouseClick = Option.some f → getXButtonWParam wp = XBUTTON2 →
      (procedureA et env (Option.some cb) WM_XBUTTONDBLCLK wp lp).trace.filter Ev.isCallback = [Ev.OnMouseClick MouseButton.XButton2 MouseAction.DoubleClick (mouseStateOf wp)]) ∧
    (∀ f, cbB.forwardMessage = Option.none → cbB.onWheelScroll = Option.some f →
      (procedureB sc env (Option.some cbB) WM_MOUSEWHEEL wp lp).trace.filter Ev.isCallback = [Ev.OnWheelScroll 0 (wheelDelta wp) (mouseStateOf wp)]) ∧
    (∀ f, cbB.forwardMessage = Option.none → cbB.onWheelScroll = Option.some f →
      (procedureB sc env (Option.some cbB) WM_MOUSEHWHEEL wp lp).trace.filter Ev.isCallback = [Ev.OnWheelScroll (wheelDelta wp) 0 (mouseStateOf wp)]) ∧
    (∀ f, cbB.forwardMessage = Option.none → cbB.onKeyboardPress = Option.some f →
      (procedureB sc env (Option.some cbB) WM_KEYDOWN wp lp).trace.filter Ev.isCallback = [Ev.OnKeyboardPress wp (if repeatBit lp then KeyAction.Repeat else KeyAction.Press)]) ∧
    (∀ f, cbB.forwardMessage = Option.none → cbB.onKeyboardPress = Option.some f →
      (procedureB sc env (Option.some cbB) WM_SYSKEYDOWN wp lp).trace.filter Ev.isCallback = [Ev.OnKeyboardPress wp (if repeatBit lp then KeyAction.Repeat else KeyAction.Press)]) ∧
    (∀ f, cbB.forwardMessage = Option.none → cbB.onKeyboardPress = Option.some f →
      (procedureB sc env (Option.some cbB) WM_KEYUP wp lp).trace.filter Ev.isCallback = [Ev.OnKeyboardPress wp KeyAction.Release]) ∧
    (∀ f, cbB.forwardMessage = Option.none → cbB.onKeyboardPress = Option.some f →
      (procedureB sc env (Option.some cbB) WM_SYSKEYUP wp lp).trace.filter Ev.isCallback = [Ev.OnKeyboardPress wp KeyAction.Release]) ∧
    (∀ f, cbB.forwardMessage = Option.none → cbB.onMouseClick = Option.some f → getXButtonWParam wp = XBUTTON1 →
      (procedureB sc env (Option.some cbB) WM_XBUTTONDOWN wp lp).trace.filter Ev.isCallback = [Ev.OnMouseClick MouseButton.XButton1 MouseAction.Down (mouseStateOf wp)]) ∧
    (∀ f, cbB.forwardMessage = Option.none → cbB.onMouseClick = Option.some f → getXButtonWParam wp = XBUTTON2 →
      (procedureB sc env (Option.some cbB) WM_XBUTTONDOWN wp lp).trace.filter Ev.isCallback = [Ev.OnMouseClick MouseButton.XButton2 MouseAction.Down (mouseStateOf wp)]) ∧
    (∀ f, cbB.forwardMessage = Option.none → cbB.onMouseClick = Option.some f → getXButtonWParam wp = XBUTTON1 →
      (procedureB sc env (Option.some cbB) WM_XBUTTONUP wp lp).trace.filter Ev.isCallback = [Ev.OnMouseClick MouseButton.XButton1 MouseAction.Up (mouseStateOf wp)]) ∧
    (∀ f, cbB.forwardMessage = Option.none → cbB.onMouseClick = Option.some f → getXButtonWParam wp = XBUTTON2 →
      (procedureB sc env (Option.some cbB) WM_XBUTTONUP wp lp).trace.filter Ev.isCallback = [Ev.OnMouseClick MouseButton.XButton2 MouseAction.Up (mouseStateOf wp)]) ∧
    (∀ f, cbB.forwardMessage = Option.none → cbB.onMouseClick = Option.some f → getXButtonWParam wp = XBUTTON1 →
      (procedureB sc env (Option.some cbB) WM_XBUTTONDBLCLK wp lp).trace.filter Ev.isCallback = [Ev.OnMouseClick MouseButton.XButton1 MouseAction.DoubleClick (mouseStateOf wp)]) ∧
    (∀ f, cbB.forwardMessage = Option.none → cbB.onMouseClick = Option.some f → getXButtonWParam wp = XBUTTON2 →
      (procedureB sc env (Option.some cbB) WM_XBUTTONDBLCLK wp lp).trace.filter Ev.isCallback = [Ev.OnMouseClick MouseButton.XButton2 MouseAction.DoubleClick (mouseStateOf wp)]) ∧
    (∀ k : Int, toInt16 (hiword wp) = 120 * k → wheelDelta wp = k) := by
  refine ⟨?_, ?_, ?_, ?_, ?_, ?_, ?_, ?_, ?_, ?_, ?_, ?_, ?_, ?_, ?_, ?_, ?_, ?_, ?_, ?_, ?_, ?_, ?_, ?_, ?_⟩
  · intro f hfw hslot
    rw [procA_callbacks_of_switch et env cb WM_MOUSEWHEEL wp lp (by decide) (by decide)
      (by decide) hfw (by simp [switchA, WM_MOUSEWHEEL, classifyAB_mouseWheel, wheelCase, hslot])]
    simp [switchA, WM_MOUSEWHEEL, classifyAB_mouseWheel, wheelCase, hslot, Ev.isCallback]
  · intro f hfw hslot
    rw [procA_callbacks_of_switch et env cb WM_MOUSEHWHEEL wp lp (by decide) (by decide)
      (by decide) hfw (by simp [switchA, WM_MOUSEHWHEEL, classifyAB_mouseHWheel, wheelCase, hslot])]
    simp [switchA, WM_MOUSEHWHEEL, classifyAB_mouseHWheel, wheelCase, hslot, Ev.isCallback]
  · intro f hfw hslot
    rw [procA_callbacks_of_switch et env cb WM_KEYDOWN wp lp (by decide) (by decide)
      (by decide) hfw (by simp [switchA, WM_KEYDOWN, classifyAB_keyDown, keyCase, hslot])]
    simp [switchA, WM_KEYDOWN, classifyAB_keyDown, keyCase, hslot, Ev.isCallback]
  · intro f hfw hslot
    rw [procA_callbacks_of_switch et env cb WM_SYSKEYDOWN wp lp (by decide) (by decide)
      (by decide) hfw (by simp [switchA, WM_SYSKEYDOWN, classifyAB_sysKeyDown, keyCase, hslot])]
    simp [switchA, WM_SYSKEYDOWN, classifyAB_sysKeyDown, keyCase, hslot, Ev.isCallback]
  · intro f hfw hslot
    rw [procA_callbacks_of_switch et env cb WM_KEYUP wp lp (by decide) (by decide)
      (by decide) hfw (by simp [switchA, WM_KEYUP, classifyAB_keyUp, keyCase, hslot])]
    simp [switchA, WM_KEYUP, classifyAB_keyUp, keyCase, hslot, Ev.isCallback]
  · intro f hfw hslot
    rw [procA_callbacks_of_switch et env cb WM_SYSKEYUP wp lp (by decide) (by decide)
      (by decide) hfw (by simp [switchA, WM_SYSKEYUP, classifyAB_sysKeyUp, keyCase, hslot])]
    simp [switchA, WM_SYSKEYUP, classifyAB_sysKeyUp, keyCase, hslot, Ev.isCallback]
  · intro f hfw hslot hx
    rw [procA_callbacks_of_switch et env cb WM_XBUTTONDOWN wp lp (by decide) (by decide)
      (by decide) hfw (by simp [switchA, WM_XBUTTONDOWN, XBUTTON1, XBUTTON2, WM_XBUTTONUP, WM_XBUTTONDOWN, WM_XBUTTONDBLCLK, classifyAB_xbuttonDown, xbuttonCase, hslot, hx])]
    simp [switchA, WM_XBUTTONDOWN, XBUTTON1, XBUTTON2, WM_XBUTTONUP, WM_XBUTTONDOWN, WM_XBUTTONDBLCLK, classifyAB_xbuttonDown, xbuttonCase, hslot, hx, Ev.isCallback]
  · intro f hfw hslot hx
    rw [procA_callbacks_of_switch et env cb WM_XBUTTONDOWN wp lp (by decide) (by decide)
      (by decide) hfw (by simp [switchA, WM_XBUTTONDOWN, XBUTTON1, XBUTTON2, WM_XBUTTONUP, WM_XBUTTONDOWN, WM_XBUTTONDBLCLK, classifyAB_xbuttonDown, xbuttonCase, hslot, hx])]
    simp [switchA, WM_XBUTTONDOWN, XBUTTON1, XBUTTON2, WM_XBUTTONUP, WM_XBUTTONDOWN, WM_XBUTTONDBLCLK, classifyAB_xbuttonDown, xbuttonCase, hslot, hx, Ev.isCallback]
  · intro f hfw hslot hx
    rw [procA_callbacks_of_switch et env cb WM_XBUTTONUP wp lp (by decide) (by decide)
      (by decide) hfw (by simp [switchA, WM_XBUTTONUP, XBUTTON1, XBUTTON2, WM_XBUTTONUP, WM_XBUTTONDOWN, WM_XBUTTONDBLCLK, classifyAB_xbuttonUp, xbuttonCase, hslot, hx])]
    simp [switchA, WM_XBUTTONUP, XBUTTON1, XBUTTON2, WM_XBUTTONUP, WM_XBUTTONDOWN, WM_XBUTTONDBLCLK, classifyAB_xbuttonUp, xbuttonCase, hslot, hx, Ev.isCallback]
  · intro f hfw hslot hx
    rw [procA_callbacks_of_switch et env cb WM_XBUTTONUP wp lp (by decide) (by decide)
      (by decide) hfw (by simp [switchA, WM_XBUTTONUP, XBUTTON1, XBUTTON2, WM_XBUTTONUP, WM_XBUTTONDOWN, WM_XBUTTONDBLCLK, classifyAB_xbuttonUp, xbuttonCase, hslot, hx])]
    simp [switchA, WM_XBUTTONUP, XBUTTON1, XBUTTON2, WM_XBUTTONUP, WM_XBUTTONDOWN, WM_XBUTTONDBLCLK, classifyAB_xbuttonUp, xbuttonCase, hslot, hx, Ev.isCallback]
  · intro f hfw hslot hx
    rw [procA_callbacks_of_switch et env cb WM_XBUTTONDBLCLK wp lp (by decide) (by decide)
      (by decide) hfw (by simp [switchA, WM_XBUTTONDBLCLK, XBUTTON1, XBUTTON2, WM_XBUTTONUP, WM_XBUTTONDOWN, WM_XBUTTONDBLCLK, classifyAB_xbuttonDblClk, xbuttonCase, hslot, hx])]
    simp [switchA, WM_XBUTTONDBLCLK, XBUTTON1, XBUTTON2, WM_XBUTTONUP, WM_XBUTTONDOWN, WM_XBUTTONDBLCLK, classifyAB_xbuttonDblClk, xbuttonCase, hslot, hx, Ev.isCallback]
  · intro f hfw hslot hx
    rw [procA_callbacks_of_switch et env cb WM_XBUTTONDBLCLK wp lp (by decide) (by decide)
      (by decide) hfw (by simp [switchA, WM_XBUTTONDBLCLK, XBUTTON1, XBUTTON2, WM_XBUTTONUP, WM_XBUTTONDOWN, WM_XBUTTONDBLCLK, classifyAB_xbuttonDblClk, xbuttonCase, hslot, hx])]
    simp [switchA, WM_XBUTTONDBLCLK, XBUTTON1, XBUTTON2, WM_XBUTTONUP, WM_XBUTTONDOWN, WM_XBUTTONDBLCLK, classifyAB_xbuttonDblClk, xbuttonCase, hslot, hx, Ev.isCallback]
  · intro f hfw hslot
    rw [procB_callbacks_of_switch sc env cbB WM_MOUSEWHEEL wp lp (by decide) (by decide)
      (by decide) hfw]
    simp [switchB, WM_MOUSEWHEEL, classifyAB_mouseWheel, wheelCase, hslot, Ev.isCallback]
  · intro f hfw hslot
    rw [procB_callbacks_of_switch sc env cbB WM_MOUSEHWHEEL wp lp (by decide) (by decide)
      (by decide) hfw]
    simp [switchB, WM_MOUSEHWHEEL, classifyAB_mouseHWheel, wheelCase, hslot, Ev.isCallback]
  · intro f hfw hslot
    rw [procB_callbacks_of_switch sc env cbB WM_KEYDOWN wp lp (by decide) (by decide)
      (by decide) hfw]
    simp [switchB, WM_KEYDOWN, classifyAB_keyDown, keyCase, hslot, Ev.isCallback]
  · intro f hfw hslot
    rw [procB_callbacks_of_switch sc env cbB WM_SYSKEYDOWN wp lp (by decide) (by decide)
      (by decide) hfw]
    simp [switchB, WM_SYSKEYDOWN, classifyAB_sysKeyDown, keyCase, hslot, Ev.isCallback]
  · intro f hfw hslot
    rw [procB_callbacks_of_switch sc env cbB WM_KEYUP wp lp (by decide) (by decide)
      (by decide) hfw]
    simp [switchB, WM_KEYUP, classifyAB_keyUp, keyCase, hslot, Ev.isCallback]
  · intro f hfw hslot
    rw [procB_callbacks_of_switch sc env cbB WM_SYSKEYUP wp lp (by decide) (by decide)
      (by decide) hfw]
    simp [switchB, WM_SYSKEYUP, classifyAB_sysKeyUp, keyCase, hslot, Ev.isCallback]
  · intro f hfw hslot hx
    rw [procB_callbacks_of_switch sc env cbB WM_XBUTTONDOWN wp lp (by decide) (by decide)
      (by decide) hfw]
    simp [switchB, WM_XBUTTONDOWN, XBUTTON1, XBUTTON2, WM_XBUTTONUP, WM_XBUTTONDOWN, WM_XBUTTONDBLCLK, classifyAB_xbuttonDown, xbuttonCase, hslot, hx, Ev.isCallback]
  · intro f hfw hslot hx
    rw [procB_callbacks_of_switch sc env cbB WM_XBUTTONDOWN wp lp (by decide) (by decide)
      (by decide) hfw]
    simp [switchB, WM_XBUTTONDOWN, XBUTTON1, XBUTTON2, WM_XBUTTONUP, WM_XBUTTONDOWN, WM_XBUTTONDBLCLK, classifyAB_xbuttonDown, xbuttonCase, hslot, hx, Ev.isCallback]
  · intro f hfw hslot hx
    rw [procB_callbacks_of_switch sc env cbB WM_XBUTTONUP wp lp (by decide) (by decide)
      (by decide) hfw]
    simp [switchB, WM_XBUTTONUP, XBUTTON1, XBUTTON2, WM_XBUTTONUP, WM_XBUTTONDOWN, WM_XBUTTONDBLCLK, classifyAB_xbuttonUp, xbuttonCase, hslot, hx, Ev.isCallback]
  · intro f hfw hslot hx
    rw [procB_callbacks_of_switch sc env cbB WM_XBUTTONUP wp lp (by decide) (by decide)
      (by decide) hfw]
    simp [switchB, WM_XBUTTONUP, XBUTTON1, XBUTTON2, WM_XBUTTONUP, WM_XBUTTONDOWN, WM_XBUTTONDBLCLK, classifyAB_xbuttonUp, xbuttonCase, hslot, hx, Ev.isCallback]
  · intro f hfw hslot hx
    rw [procB_callbacks_of_switch sc env cbB WM_XBUTTONDBLCLK wp lp (by decide) (by decide)
      (by decide) hfw]
    simp [switchB, WM_XBUTTONDBLCLK, XBUTTON1, XBUTTON2, WM_XBUTTONUP, WM_XBUTTONDOWN, WM_XBUTTONDBLCLK, classifyAB_xbuttonDblClk, xbuttonCase, hslot, hx, Ev.isCallback]
  · intro f hfw hslot hx
    rw [procB_callbacks_of_switch sc env cbB WM_XBUTTONDBLCLK wp lp (by decide) (by decide)
      (by decide) hfw]
    simp [switchB, WM_XBUTTONDBLCLK, XBUTTON1, XBUTTON2, WM_XBUTTONUP, WM_XBUTTONDOWN, WM_XBUTTONDBLCLK, classifyAB_xbuttonDblClk, xbuttonCase, hslot, hx, Ev.isCallback]
  · intro k hk
    have h120 : ((WHEEL_DELTA : Nat) : Int) = 120 := rfl
    unfold wheelDelta cppDiv
    rw [hk, h120]
    exact Int.mul_tdiv_cancel_left k (by decide)

/-- Witness for C5: a vertical wheel message with `HIWORD(wParam) = 120`
(one detent forward, no modifiers) invokes `onWheelScroll` exactly once
with `(dx, dy, state) = (0, 1, 0)`. -/
theorem input_decoding_per_message_witness :
    (procedureA false envEx (Option.some cbWheelA)
        WM_MOUSEWHEEL 7864320 0).trace.filter Ev.isCallback =
      [Ev.OnWheelScroll 0 1 0] := by
  have h := (input_decoding_per_message false false envEx cbWheelA cbEmptyB
    7864320 0).1 (fun _ _ _ => -1) rfl rfl
  rw [h]
  decide

/-- Counterexample for C2 as stated: in the easywin32.h skip-caption
variant, handling `WM_NCCALCSIZE` never invokes the default native sizing
computation, and the resulting rectangle is not the default-computed one
with the top restored. -/
theorem nccalcsize_counterexample :
    Ev.DefWindowProcCall ∉
      (procedureA true envEx Option.none WM_NCCALCSIZE 0 0).trace ∧
    (procedureA true envEx Option.none WM_NCCALCSIZE 0 0).ncRect ≠
      { envEx.defCalcRect envEx.ncRect with top := envEx.ncRect.top } := by
  decide

/-- C3: drag-and-drop dispatch.  In the part_001 procedure the claim holds
in full: with a registered callback the callback receives exactly the N
dropped paths in drop order and `DragFinish` runs exactly once, and
without a callback `DragFinish` still runs exactly once.  In the
easywin32.h procedure the registered callback is invoked once per path in
drop order with one `DragFinish`, but with NO registered callback
`DragFinish` is never called — the drop handle leaks, contradicting the
claim (the code slip part_001 later fixed). -/
theorem dropfiles_dragfinish (et sc : Bool) (env : Env) (wp lp : Nat) :
    ((procedureB sc env (Option.some cbDropB) WM_DROPFILES wp lp).trace.filter
        Ev.isCallback = [Ev.OnDropFiles env.dropFiles]) ∧
    ((procedureB sc env (Option.some cbDropB) WM_DROPFILES wp lp).trace.count
        Ev.DragFinishCall = 1) ∧
    ((procedureB sc env (Option.some cbEmptyB) WM_DROPFILES wp lp).trace.count
        Ev.DragFinishCall = 1) ∧
    ((procedureA et env (Option.some cbDropA) WM_DROPFILES wp lp).trace.filter
        Ev.isCallback = env.dropFiles.map Ev.OnDropFile) ∧
    ((procedureA et env (Option.some cbDropA) WM_DROPFILES wp lp).trace.count
        Ev.DragFinishCall = 1) ∧
    ((procedureA et env (Option.some cbEmptyA) WM_DROPFILES wp lp).trace.count
        Ev.DragFinishCall = 0) := by
  refine ⟨?_, ?_, ?_, ?_, ?_, ?_⟩
  · simp [procedureB, procAfterForwardB, switchB, classifyAB_dropFiles,
      cbDropB, WM_CREATE, WM_NCCALCSIZE, WM_DESTROY, WM_DROPFILES,
      Ev.isCallback]
  · simp [procedureB, procAfterForwardB, switchB, classifyAB_dropFiles,
      cbDropB, WM_CREATE, WM_NCCALCSIZE, WM_DESTROY, WM_DROPFILES,
      List.count_cons]
  · simp [procedureB, procAfterForwardB, switchB, classifyAB_dropFiles,
      cbEmptyB, WM_CREATE, WM_NCCALCSIZE, WM_DESTROY, WM_DROPFILES, callDef,
      List.count_cons, List.count_append]
  · simp [procedureA, procAfterForwardA, switchA, classifyAB_dropFiles,
      cbDropA, WM_CREATE, WM_NCCALCSIZE, WM_DESTROY, WM_DROPFILES,
      List.filter_append, filter_isCallback_map_dropFile, Ev.isCallback]
  · simp [procedureA, procAfterForwardA, switchA, classifyAB_dropFiles,
      cbDropA, WM_CREATE, WM_NCCALCSIZE, WM_DESTROY, WM_DROPFILES,
      List.count_append, count_dragfinish_map_dropFile, List.count_cons]
  · simp [procedureA, procAfterForwardA, switchA, classifyAB_dropFiles,
      cbEmptyA, WM_CREATE, WM_NCCALCSIZE, WM_DESTROY, WM_DROPFILES, callDef,
      List.count_cons]

end EzSpec
